import Mathlib

/-!
Verification of the sl-sh bytecode disassembler and debugger introspection layer.

The definitions below are a shallow embedding of the Rust sources:
  * `src/src/chunk/disassemble.rs` (operand decoders, `disassemble_instruction`,
    `Chunk::disassemble_chunk`),
  * `src/slosh/src/debug.rs` (`dump_regs`, `dump_stack`, frame selection in
    the `debug` REPL loop).
Bytes are modelled as `Nat` (the Rust stream holds `u8`, so every byte is
below 256; shifts use explicit `<<<`/`|||` exactly as the source).  Printing
to stdout is modelled by returning the printed `String`s.
-/

set_option maxHeartbeats 4000000

namespace Slvm

/-- Modelled from the spec: `error.rs` is not under `src/`.  §7 distinguishes a
fatal "corrupt code" (chunk) error class from recoverable runtime errors; a
`VMError` carries its class and a message.  `VMError::new_chunk` builds a
corrupt-code error. -/
inductive ErrClass where
  | chunk
  | runtime
deriving DecidableEq, Repr

/-- Modelled from the spec: the error value carried out of a failed decode. -/
structure VMError where
  cls : ErrClass
  msg : String
deriving DecidableEq, Repr

/-- Modelled from the spec: constructor used for corrupt-code errors. -/
def VMError.new_chunk (m : String) : VMError := ⟨ErrClass.chunk, m⟩

/-- The `code.next()` iterator over `self.code.iter().cloned().enumerate()`:
a current enumeration index plus the remaining bytes. -/
structure ByteIter where
  idx : Nat
  bytes : List Nat
deriving DecidableEq, Repr

/-- One `next()` call on the enumerated byte iterator. -/
def ByteIter.next : ByteIter → Option ((Nat × Nat) × ByteIter)
  | ⟨_, []⟩ => none
  | ⟨i, b :: r⟩ => some ((i, b), ⟨i + 1, r⟩)

/-- Rust fixed-width alternate hex formatting (width-N zero-padded, as in the
source format strings): a 0x prefix followed by the hex digits of `n`,
zero-padded on the left to at least `digits` digits. -/
def hexFmt (digits : Nat) (n : Nat) : String :=
  let ds := Nat.toDigits 16 n
  "0x" ++ String.mk (List.replicate (digits - ds.length) '0' ++ ds)

/-- Macro `decode_u8_enum!` from disassemble.rs. -/
def decode_u8_enum (code : ByteIter) : Except VMError (Nat × ByteIter) :=
  match code.next with
  | some (p, c) => .ok (p.2, c)
  | none =>
    .error (VMError.new_chunk "Error decoding a u8 from chunk stream, missing operand.")

/-- Macro `decode_u16_enum!` from disassemble.rs: two bytes, first byte shifted high. -/
def decode_u16_enum (code : ByteIter) : Except VMError (Nat × ByteIter) :=
  match code.next with
  | some (p1, c1) =>
    match c1.next with
    | some (p2, c2) => .ok ((p1.2 <<< 8) ||| p2.2, c2)
    | none => .error (VMError.new_chunk "Error decoding a u16 from chunk stream.")
  | none => .error (VMError.new_chunk "Error decoding a u16 from chunk stream.")

/-- Macro `decode_u32_enum!` from disassemble.rs: four bytes, big-endian. -/
def decode_u32_enum (code : ByteIter) : Except VMError (Nat × ByteIter) :=
  match code.next with
  | some (p1, c1) =>
    match c1.next with
    | some (p2, c2) =>
      match c2.next with
      | some (p3, c3) =>
        match c3.next with
        | some (p4, c4) =>
          .ok ((p1.2 <<< 24) ||| (p2.2 <<< 16) ||| (p3.2 <<< 8) ||| p4.2, c4)
        | none => .error (VMError.new_chunk "Error decoding a u32 from chunk stream.")
      | none => .error (VMError.new_chunk "Error decoding a u32 from chunk stream.")
    | none => .error (VMError.new_chunk "Error decoding a u32 from chunk stream.")
  | none => .error (VMError.new_chunk "Error decoding a u32 from chunk stream.")

/-- Macro `disassemble_operand!`: register (`R`) or constant (`K`) operand, one byte
narrow, two bytes wide. -/
def disassemble_operand (code : ByteIter) (register : Bool) (wide : Bool) :
    Except VMError (String × ByteIter) :=
  if register then
    if wide then
      Except.bind (decode_u16_enum code) fun p => .ok ("R(" ++ hexFmt 4 p.1 ++ ")", p.2)
    else
      Except.bind (decode_u8_enum code) fun p => .ok ("R(" ++ hexFmt 2 p.1 ++ ")", p.2)
  else
    if wide then
      Except.bind (decode_u16_enum code) fun p => .ok ("K(" ++ hexFmt 4 p.1 ++ ")", p.2)
    else
      Except.bind (decode_u8_enum code) fun p => .ok ("K(" ++ hexFmt 2 p.1 ++ ")", p.2)

/-- Macro `disassemble_immediate!`: plain inline immediate, one byte narrow, two wide. -/
def disassemble_immediate (code : ByteIter) (wide : Bool) :
    Except VMError (String × ByteIter) :=
  if wide then
    Except.bind (decode_u16_enum code) fun p => .ok (hexFmt 4 p.1, p.2)
  else
    Except.bind (decode_u8_enum code) fun p => .ok (hexFmt 2 p.1, p.2)

/-- Macro `disassemble_immediate_big!`: big immediate, two bytes narrow, four wide. -/
def disassemble_immediate_big (code : ByteIter) (wide : Bool) :
    Except VMError (String × ByteIter) :=
  if wide then
    Except.bind (decode_u32_enum code) fun p => .ok (hexFmt 8 p.1, p.2)
  else
    Except.bind (decode_u16_enum code) fun p => .ok (hexFmt 4 p.1, p.2)

/-- Modelled from the spec: `opcodes.rs` is not under `src/`.  §6 fixes the
opcode space as a byte in `0..MAX_OP_CODE` with the table of §4.3 as the full
recognized set; the concrete numeric values are assigned here sequentially in
the order of the `disassemble_instruction` match arms (only their distinctness
and the membership of the recognized set matter for the claims). -/
def NOP : Nat := 0
def HALT : Nat := 1
def RET : Nat := 2
def SRET : Nat := 3
def WIDE : Nat := 4
def MOV : Nat := 5
def SET : Nat := 6
def CONST : Nat := 7
def REF : Nat := 8
def DEF : Nat := 9
def DEFV : Nat := 10
def REFI : Nat := 11
def CLRREG : Nat := 12
def REGT : Nat := 13
def REGF : Nat := 14
def REGN : Nat := 15
def REGC : Nat := 16
def REGB : Nat := 17
def REGI : Nat := 18
def REGU : Nat := 19
def CLOSE : Nat := 20
def BMOV : Nat := 21
def CALL : Nat := 22
def CALLG : Nat := 23
def TCALL : Nat := 24
def TCALLG : Nat := 25
def CALLM : Nat := 26
def TCALLM : Nat := 27
def EQ : Nat := 28
def EQUAL : Nat := 29
def NOT : Nat := 30
def ERR : Nat := 31
def CCC : Nat := 32
def DFR : Nat := 33
def DFRPOP : Nat := 34
def ONERR : Nat := 35
def JMP : Nat := 36
def JMPF : Nat := 37
def JMPB : Nat := 38
def JMPFT : Nat := 39
def JMPBT : Nat := 40
def JMPFF : Nat := 41
def JMPBF : Nat := 42
def JMP_T : Nat := 43
def JMP_F : Nat := 44
def JMPEQ : Nat := 45
def JMPLT : Nat := 46
def JMPGT : Nat := 47
def JMPFU : Nat := 48
def JMPBU : Nat := 49
def JMPFNU : Nat := 50
def JMPBNU : Nat := 51
def ADD : Nat := 52
def SUB : Nat := 53
def MUL : Nat := 54
def DIV : Nat := 55
def ADDM : Nat := 56
def SUBM : Nat := 57
def MULM : Nat := 58
def DIVM : Nat := 59
def NUMEQ : Nat := 60
def NUMNEQ : Nat := 61
def NUMLT : Nat := 62
def NUMGT : Nat := 63
def NUMLTE : Nat := 64
def NUMGTE : Nat := 65
def INC : Nat := 66
def DEC : Nat := 67
def CONS : Nat := 68
def CAR : Nat := 69
def CDR : Nat := 70
def XAR : Nat := 71
def XDR : Nat := 72
def LIST : Nat := 73
def APND : Nat := 74
def VECMK : Nat := 75
def VECELS : Nat := 76
def VECPSH : Nat := 77
def VECPOP : Nat := 78
def VECNTH : Nat := 79
def VECSTH : Nat := 80
def VECMKD : Nat := 81
def VEC : Nat := 82
def VECLEN : Nat := 83
def VECCLR : Nat := 84
def STR : Nat := 85
def TYPE : Nat := 86
def MAX_OP_CODE : Nat := 86

/-- The list of recognized opcodes (the full match of
`Chunk::disassemble_instruction`; anything else hits the unknown-opcode arm). -/
def opcodeList : List Nat :=
  [NOP, HALT, RET, SRET, WIDE, MOV, SET, CONST, REF, DEF, DEFV, REFI, CLRREG,
   REGT, REGF, REGN, REGC, REGB, REGI, REGU, CLOSE, BMOV, CALL, CALLG, TCALL,
   TCALLG, CALLM, TCALLM, EQ, EQUAL, NOT, ERR, CCC, DFR, DFRPOP, ONERR, JMP,
   JMPF, JMPB, JMPFT, JMPBT, JMPFF, JMPBF, JMP_T, JMP_F, JMPEQ, JMPLT, JMPGT,
   JMPFU, JMPBU, JMPFNU, JMPBNU, ADD, SUB, MUL, DIV, ADDM, SUBM, MULM, DIVM,
   NUMEQ, NUMNEQ, NUMLT, NUMGT, NUMLTE, NUMGTE, INC, DEC, CONS, CAR, CDR, XAR,
   XDR, LIST, APND, VECMK, VECELS, VECPSH, VECPOP, VECNTH, VECSTH, VECMKD, VEC,
   VECLEN, VECCLR, STR, TYPE]

/-- Function `Chunk::disassemble_instruction` of disassemble.rs: decode and render one instruction whose
opcode byte `op` has already been read from `code`.  Returns the printed text,
the wide flag handed to the next instruction (`Ok(true)` exactly in the `WIDE`
arm), and the remaining iterator.  The Rust `match op` compares against the
opcode constants, i.e. matches literal byte values; `Except.bind` plays the
role of the `?` operator on each operand decode. -/
def disassemble_instruction (code : ByteIter) (op : Nat) (wide : Bool) :
    Except VMError (String × Bool × ByteIter) :=
  match op with
  | 0 => -- NOP
    .ok ("NOP(" ++ hexFmt 2 NOP ++ ")\n", false, code)
  | 1 => -- HALT
    .ok ("HALT(" ++ hexFmt 2 HALT ++ ")\n", false, code)
  | 2 => -- RET
    .ok ("RET(" ++ hexFmt 2 RET ++ ")\n", false, code)
  | 3 => -- SRET
    Except.bind (disassemble_operand code true wide) fun p1 =>
    .ok ("SRET(" ++ hexFmt 2 SRET ++ ")   \t" ++ p1.1 ++ "\n", false, p1.2)
  | 4 => -- WIDE
    .ok ("WIDE(" ++ hexFmt 2 WIDE ++ ")\n", true, code)
  | 5 => -- MOV
    Except.bind (disassemble_operand code true wide) fun p1 =>
    Except.bind (disassemble_operand p1.2 true wide) fun p2 =>
    .ok ("MOV(" ++ hexFmt 2 MOV ++ ")    \t" ++ p1.1 ++ "\t" ++ p2.1 ++ "\n", false, p2.2)
  | 6 => -- SET
    Except.bind (disassemble_operand code true wide) fun p1 =>
    Except.bind (disassemble_operand p1.2 true wide) fun p2 =>
    .ok ("SET(" ++ hexFmt 2 SET ++ ")    \t" ++ p1.1 ++ "\t" ++ p2.1 ++ "\n", false, p2.2)
  | 7 => -- CONST
    Except.bind (disassemble_operand code true wide) fun p1 =>
    Except.bind (disassemble_operand p1.2 false wide) fun p2 =>
    .ok ("CONST(" ++ hexFmt 2 CONST ++ ")  \t" ++ p1.1 ++ "\t" ++ p2.1 ++
      "\n", false, p2.2)
  | 8 => -- REF
    Except.bind (disassemble_operand code true wide) fun p1 =>
    Except.bind (disassemble_operand p1.2 true wide) fun p2 =>
    .ok ("REF(" ++ hexFmt 2 REF ++ ")    \t" ++ p1.1 ++ "\t" ++ "G[" ++ p2.1 ++ "]" ++
      "\n", false, p2.2)
  | 9 => -- DEF
    Except.bind (disassemble_operand code true wide) fun p1 =>
    Except.bind (disassemble_operand p1.2 true wide) fun p2 =>
    .ok ("DEF(" ++ hexFmt 2 DEF ++ ")    \t" ++ "G[" ++ p1.1 ++ "]" ++ "\t" ++ p2.1 ++
      "\n", false, p2.2)
  | 10 => -- DEFV
    Except.bind (disassemble_operand code true wide) fun p1 =>
    Except.bind (disassemble_operand p1.2 true wide) fun p2 =>
    .ok ("DEFV(" ++ hexFmt 2 DEFV ++ ")   \t" ++ "G[" ++ p1.1 ++ "]" ++ "\t" ++
      p2.1 ++ "\n", false, p2.2)
  | 11 => -- REFI
    Except.bind (disassemble_operand code true wide) fun p1 =>
    Except.bind (disassemble_immediate_big p1.2 wide) fun p2 =>
    .ok ("REFI(" ++ hexFmt 2 REFI ++ ")   \t" ++ p1.1 ++ "\t" ++ "G[" ++ p2.1 ++
      "]" ++ "\n", false, p2.2)
  | 12 => -- CLRREG
    Except.bind (disassemble_operand code true wide) fun p1 =>
    .ok ("CLRREG(" ++ hexFmt 2 CLRREG ++ ") \t" ++ p1.1 ++ "\n", false, p1.2)
  | 13 => -- REGT
    Except.bind (disassemble_operand code true wide) fun p1 =>
    .ok ("REGT(" ++ hexFmt 2 REGT ++ ")   \t" ++ p1.1 ++ "\n", false, p1.2)
  | 14 => -- REGF
    Except.bind (disassemble_operand code true wide) fun p1 =>
    .ok ("REGF(" ++ hexFmt 2 REGF ++ ")   \t" ++ p1.1 ++ "\n", false, p1.2)
  | 15 => -- REGN
    Except.bind (disassemble_operand code true wide) fun p1 =>
    .ok ("REGN(" ++ hexFmt 2 REGN ++ ")   \t" ++ p1.1 ++ "\n", false, p1.2)
  | 16 => -- REGC
    Except.bind (disassemble_operand code true wide) fun p1 =>
    .ok ("REGC(" ++ hexFmt 2 REGC ++ ")   \t" ++ p1.1 ++ "\n", false, p1.2)
  | 17 => -- REGB
    Except.bind (disassemble_operand code true wide) fun p1 =>
    Except.bind (disassemble_immediate p1.2 wide) fun p2 =>
    .ok ("REGB(" ++ hexFmt 2 REGB ++ ")   \t" ++ p1.1 ++ "\t" ++ p2.1 ++ "\n", false, p2.2)
  | 18 => -- REGI
    Except.bind (disassemble_operand code true wide) fun p1 =>
    Except.bind (disassemble_immediate p1.2 wide) fun p2 =>
    .ok ("REGI(" ++ hexFmt 2 REGI ++ ")   \t" ++ p1.1 ++ "\t" ++ p2.1 ++ "\n", false, p2.2)
  | 19 => -- REGU
    Except.bind (disassemble_operand code true wide) fun p1 =>
    Except.bind (disassemble_immediate p1.2 wide) fun p2 =>
    .ok ("REGU(" ++ hexFmt 2 REGU ++ ")   \t" ++ p1.1 ++ "\t" ++ p2.1 ++ "\n", false, p2.2)
  | 20 => -- CLOSE
    Except.bind (disassemble_operand code true wide) fun p1 =>
    Except.bind (disassemble_operand p1.2 true wide) fun p2 =>
    .ok ("CLOSE(" ++ hexFmt 2 CLOSE ++ ")  \t" ++ p1.1 ++ "\t" ++ p2.1 ++
      "\n", false, p2.2)
  | 21 => -- BMOV
    Except.bind (disassemble_operand code true wide) fun p1 =>
    Except.bind (disassemble_operand p1.2 true wide) fun p2 =>
    Except.bind (disassemble_immediate p2.2 wide) fun p3 =>
    .ok ("BMOV(" ++ hexFmt 2 BMOV ++ ")   \t" ++ p1.1 ++ "\t" ++ p2.1 ++ "\t" ++
      p3.1 ++ "\n", false, p3.2)
  | 22 => -- CALL
    Except.bind (disassemble_operand code true wide) fun p1 =>
    Except.bind (disassemble_immediate p1.2 wide) fun p2 =>
    Except.bind (disassemble_operand p2.2 true wide) fun p3 =>
    .ok ("CALL(" ++ hexFmt 2 CALL ++ ")   \t" ++ p1.1 ++ "\t" ++ p2.1 ++ "\t" ++
      p3.1 ++ "\n", false, p3.2)
  | 23 => -- CALLG
    Except.bind (disassemble_immediate_big code wide) fun p1 =>
    Except.bind (disassemble_immediate p1.2 wide) fun p2 =>
    Except.bind (disassemble_operand p2.2 true wide) fun p3 =>
    .ok ("CALLG(" ++ hexFmt 2 CALLG ++ ")  \t" ++ "G[" ++ p1.1 ++ "]" ++ "\t" ++
      p2.1 ++ "\t" ++ p3.1 ++ "\n", false, p3.2)
  | 24 => -- TCALL
    Except.bind (disassemble_operand code true wide) fun p1 =>
    Except.bind (disassemble_immediate p1.2 wide) fun p2 =>
    .ok ("TCALL(" ++ hexFmt 2 TCALL ++ ")  \t" ++ p1.1 ++ "\t" ++ p2.1 ++
      "\n", false, p2.2)
  | 25 => -- TCALLG
    Except.bind (disassemble_immediate_big code wide) fun p1 =>
    Except.bind (disassemble_immediate p1.2 wide) fun p2 =>
    .ok ("TCALLG(" ++ hexFmt 2 TCALLG ++ ") \t" ++ "G[" ++ p1.1 ++ "]" ++ "\t" ++
      p2.1 ++ "\n", false, p2.2)
  | 26 => -- CALLM
    Except.bind (disassemble_immediate code wide) fun p1 =>
    Except.bind (disassemble_operand p1.2 true wide) fun p2 =>
    .ok ("CALLM(" ++ hexFmt 2 CALLM ++ ")  \t" ++ p1.1 ++ "\t" ++ p2.1 ++
      "\n", false, p2.2)
  | 27 => -- TCALLM
    Except.bind (disassemble_immediate code wide) fun p1 =>
    .ok ("TCALLM(" ++ hexFmt 2 TCALLM ++ ") \t" ++ p1.1 ++ "\n", false, p1.2)
  | 28 => -- EQ
    Except.bind (disassemble_operand code true wide) fun p1 =>
    Except.bind (disassemble_operand p1.2 true wide) fun p2 =>
    Except.bind (disassemble_operand p2.2 true wide) fun p3 =>
    .ok ("EQ     \t" ++ p1.1 ++ "\t" ++ p2.1 ++ "\t" ++ p3.1 ++ "\n", false, p3.2)
  | 29 => -- EQUAL
    Except.bind (disassemble_operand code true wide) fun p1 =>
    Except.bind (disassemble_operand p1.2 true wide) fun p2 =>
    Except.bind (disassemble_operand p2.2 true wide) fun p3 =>
    .ok ("EQUAL  \t" ++ p1.1 ++ "\t" ++ p2.1 ++ "\t" ++ p3.1 ++ "\n", false, p3.2)
  | 30 => -- NOT
    Except.bind (disassemble_operand code true wide) fun p1 =>
    Except.bind (disassemble_operand p1.2 true wide) fun p2 =>
    .ok ("NOT    \t" ++ p1.1 ++ "\t" ++ p2.1 ++ "\n", false, p2.2)
  | 31 => -- ERR
    Except.bind (disassemble_operand code true wide) fun p1 =>
    Except.bind (disassemble_operand p1.2 true wide) fun p2 =>
    .ok ("ERR    \t" ++ p1.1 ++ "\t" ++ p2.1 ++ "\n", false, p2.2)
  | 32 => -- CCC
    Except.bind (disassemble_operand code true wide) fun p1 =>
    Except.bind (disassemble_operand p1.2 true wide) fun p2 =>
    .ok ("CCC    \t" ++ p1.1 ++ "\t" ++ p2.1 ++ "\n", false, p2.2)
  | 33 => -- DFR
    Except.bind (disassemble_operand code true wide) fun p1 =>
    .ok ("DFR    \t" ++ p1.1 ++ "\n", false, p1.2)
  | 34 => -- DFRPOP
    .ok ("DFRPOP\n", false, code)
  | 35 => -- ONERR
    Except.bind (disassemble_operand code true wide) fun p1 =>
    .ok ("ONERR  \t" ++ p1.1 ++ "\n", false, p1.2)
  | 36 => -- JMP
    Except.bind (disassemble_immediate code wide) fun p1 =>
    .ok ("JMP(" ++ hexFmt 2 JMP ++ ")    \t" ++ p1.1 ++ "\n", false, p1.2)
  | 37 => -- JMPF
    Except.bind (disassemble_immediate code wide) fun p1 =>
    .ok ("JMPF(" ++ hexFmt 2 JMPF ++ ")   \t" ++ p1.1 ++ "\n", false, p1.2)
  | 38 => -- JMPB
    Except.bind (disassemble_immediate code wide) fun p1 =>
    .ok ("JMPB(" ++ hexFmt 2 JMPB ++ ")   \t" ++ p1.1 ++ "\n", false, p1.2)
  | 39 => -- JMPFT
    Except.bind (disassemble_operand code true wide) fun p1 =>
    Except.bind (disassemble_immediate p1.2 wide) fun p2 =>
    .ok ("JMPFT(" ++ hexFmt 2 JMPFT ++ ")  \t" ++ p1.1 ++ "\t" ++ p2.1 ++
      "\n", false, p2.2)
  | 40 => -- JMPBT
    Except.bind (disassemble_operand code true wide) fun p1 =>
    Except.bind (disassemble_immediate p1.2 wide) fun p2 =>
    .ok ("JMPBT(" ++ hexFmt 2 JMPBT ++ ")  \t" ++ p1.1 ++ "\t" ++ p2.1 ++
      "\n", false, p2.2)
  | 41 => -- JMPFF
    Except.bind (disassemble_operand code true wide) fun p1 =>
    Except.bind (disassemble_immediate p1.2 wide) fun p2 =>
    .ok ("JMPFF(" ++ hexFmt 2 JMPFF ++ ")  \t" ++ p1.1 ++ "\t" ++ p2.1 ++
      "\n", false, p2.2)
  | 42 => -- JMPBF
    Except.bind (disassemble_operand code true wide) fun p1 =>
    Except.bind (disassemble_immediate p1.2 wide) fun p2 =>
    .ok ("JMPBF(" ++ hexFmt 2 JMPBF ++ ")  \t" ++ p1.1 ++ "\t" ++ p2.1 ++
      "\n", false, p2.2)
  | 43 => -- JMP_T
    Except.bind (disassemble_operand code true wide) fun p1 =>
    Except.bind (disassemble_immediate p1.2 wide) fun p2 =>
    .ok ("JMP_T(" ++ hexFmt 2 JMP_T ++ ")  \t" ++ p1.1 ++ "\t" ++ p2.1 ++
      "\n", false, p2.2)
  | 44 => -- JMP_F
    Except.bind (disassemble_operand code true wide) fun p1 =>
    Except.bind (disassemble_immediate p1.2 wide) fun p2 =>
    .ok ("JMP_F(" ++ hexFmt 2 JMP_F ++ ")  \t" ++ p1.1 ++ "\t" ++ p2.1 ++
      "\n", false, p2.2)
  | 45 => -- JMPEQ
    Except.bind (disassemble_operand code true wide) fun p1 =>
    Except.bind (disassemble_operand p1.2 true wide) fun p2 =>
    Except.bind (disassemble_immediate p2.2 wide) fun p3 =>
    .ok ("JMPEQ(" ++ hexFmt 2 JMPEQ ++ ")  \t" ++ p1.1 ++ "\t" ++ p2.1 ++ "\t" ++
      p3.1 ++ "\n", false, p3.2)
  | 46 => -- JMPLT
    Except.bind (disassemble_operand code true wide) fun p1 =>
    Except.bind (disassemble_operand p1.2 true wide) fun p2 =>
    Except.bind (disassemble_immediate p2.2 wide) fun p3 =>
    .ok ("JMPLT(" ++ hexFmt 2 JMPLT ++ ")  \t" ++ p1.1 ++ "\t" ++ p2.1 ++ "\t" ++
      p3.1 ++ "\n", false, p3.2)
  | 47 => -- JMPGT
    Except.bind (disassemble_operand code true wide) fun p1 =>
    Except.bind (disassemble_operand p1.2 true wide) fun p2 =>
    Except.bind (disassemble_immediate p2.2 wide) fun p3 =>
    .ok ("JMPGT(" ++ hexFmt 2 JMPGT ++ ")  \t" ++ p1.1 ++ "\t" ++ p2.1 ++ "\t" ++
      p3.1 ++ "\n", false, p3.2)
  | 48 => -- JMPFU
    Except.bind (disassemble_operand code true wide) fun p1 =>
    Except.bind (disassemble_immediate p1.2 wide) fun p2 =>
    .ok ("JMPFU(" ++ hexFmt 2 JMPFU ++ ")  \t" ++ p1.1 ++ "\t" ++ p2.1 ++
      "\n", false, p2.2)
  | 49 => -- JMPBU
    Except.bind (disassemble_operand code true wide) fun p1 =>
    Except.bind (disassemble_immediate p1.2 wide) fun p2 =>
    .ok ("JMPBU(" ++ hexFmt 2 JMPBU ++ ")  \t" ++ p1.1 ++ "\t" ++ p2.1 ++
      "\n", false, p2.2)
  | 50 => -- JMPFNU
    Except.bind (disassemble_operand code true wide) fun p1 =>
    Except.bind (disassemble_immediate p1.2 wide) fun p2 =>
    .ok ("JMPFNU(" ++ hexFmt 2 JMPFNU ++ ") \t" ++ p1.1 ++ "\t" ++ p2.1 ++
      "\n", false, p2.2)
  | 51 => -- JMPBNU
    Except.bind (disassemble_operand code true wide) fun p1 =>
    Except.bind (disassemble_immediate p1.2 wide) fun p2 =>
    .ok ("JMPBNU(" ++ hexFmt 2 JMPBNU ++ ") \t" ++ p1.1 ++ "\t" ++ p2.1 ++
      "\n", false, p2.2)
  | 52 => -- ADD
    Except.bind (disassemble_operand code true wide) fun p1 =>
    Except.bind (disassemble_operand p1.2 true wide) fun p2 =>
    Except.bind (disassemble_operand p2.2 true wide) fun p3 =>
    .ok ("ADD    \t" ++ p1.1 ++ "\t" ++ p2.1 ++ "\t" ++ p3.1 ++ "\n", false, p3.2)
  | 53 => -- SUB
    Except.bind (disassemble_operand code true wide) fun p1 =>
    Except.bind (disassemble_operand p1.2 true wide) fun p2 =>
    Except.bind (disassemble_operand p2.2 true wide) fun p3 =>
    .ok ("SUB    \t" ++ p1.1 ++ "\t" ++ p2.1 ++ "\t" ++ p3.1 ++ "\n", false, p3.2)
  | 54 => -- MUL
    Except.bind (disassemble_operand code true wide) fun p1 =>
    Except.bind (disassemble_operand p1.2 true wide) fun p2 =>
    Except.bind (disassemble_operand p2.2 true wide) fun p3 =>
    .ok ("MUL    \t" ++ p1.1 ++ "\t" ++ p2.1 ++ "\t" ++ p3.1 ++ "\n", false, p3.2)
  | 55 => -- DIV
    Except.bind (disassemble_operand code true wide) fun p1 =>
    Except.bind (disassemble_operand p1.2 true wide) fun p2 =>
    Except.bind (disassemble_operand p2.2 true wide) fun p3 =>
    .ok ("DIV    \t" ++ p1.1 ++ "\t" ++ p2.1 ++ "\t" ++ p3.1 ++ "\n", false, p3.2)
  | 56 => -- ADDM
    Except.bind (disassemble_operand code true wide) fun p1 =>
    Except.bind (disassemble_operand p1.2 true wide) fun p2 =>
    Except.bind (disassemble_operand p2.2 true wide) fun p3 =>
    .ok ("ADDM   \t" ++ p1.1 ++ "\t" ++ p2.1 ++ "\t" ++ p3.1 ++ "\n", false, p3.2)
  | 57 => -- SUBM
    Except.bind (disassemble_operand code true wide) fun p1 =>
    Except.bind (disassemble_operand p1.2 true wide) fun p2 =>
    Except.bind (disassemble_operand p2.2 true wide) fun p3 =>
    .ok ("SUBM   \t" ++ p1.1 ++ "\t" ++ p2.1 ++ "\t" ++ p3.1 ++ "\n", false, p3.2)
  | 58 => -- MULM
    Except.bind (disassemble_operand code true wide) fun p1 =>
    Except.bind (disassemble_operand p1.2 true wide) fun p2 =>
    Except.bind (disassemble_operand p2.2 true wide) fun p3 =>
    .ok ("MULM   \t" ++ p1.1 ++ "\t" ++ p2.1 ++ "\t" ++ p3.1 ++ "\n", false, p3.2)
  | 59 => -- DIVM
    Except.bind (disassemble_operand code true wide) fun p1 =>
    Except.bind (disassemble_operand p1.2 true wide) fun p2 =>
    Except.bind (disassemble_operand p2.2 true wide) fun p3 =>
    .ok ("DIVM   \t" ++ p1.1 ++ "\t" ++ p2.1 ++ "\t" ++ p3.1 ++ "\n", false, p3.2)
  | 60 => -- NUMEQ
    Except.bind (disassemble_operand code true wide) fun p1 =>
    Except.bind (disassemble_operand p1.2 true wide) fun p2 =>
    Except.bind (disassemble_operand p2.2 true wide) fun p3 =>
    .ok ("NUMEQ  \t" ++ p1.1 ++ "\t" ++ p2.1 ++ "\t" ++ p3.1 ++ "\n", false, p3.2)
  | 61 => -- NUMNEQ
    Except.bind (disassemble_operand code true wide) fun p1 =>
    Except.bind (disassemble_operand p1.2 true wide) fun p2 =>
    Except.bind (disassemble_operand p2.2 true wide) fun p3 =>
    .ok ("NUMNEQ \t" ++ p1.1 ++ "\t" ++ p2.1 ++ "\t" ++ p3.1 ++ "\n", false, p3.2)
  | 62 => -- NUMLT
    Except.bind (disassemble_operand code true wide) fun p1 =>
    Except.bind (disassemble_operand p1.2 true wide) fun p2 =>
    Except.bind (disassemble_operand p2.2 true wide) fun p3 =>
    .ok ("NUMLT  \t" ++ p1.1 ++ "\t" ++ p2.1 ++ "\t" ++ p3.1 ++ "\n", false, p3.2)
  | 63 => -- NUMGT
    Except.bind (disassemble_operand code true wide) fun p1 =>
    Except.bind (disassemble_operand p1.2 true wide) fun p2 =>
    Except.bind (disassemble_operand p2.2 true wide) fun p3 =>
    .ok ("NUMGT  \t" ++ p1.1 ++ "\t" ++ p2.1 ++ "\t" ++ p3.1 ++ "\n", false, p3.2)
  | 64 => -- NUMLTE
    Except.bind (disassemble_operand code true wide) fun p1 =>
    Except.bind (disassemble_operand p1.2 true wide) fun p2 =>
    Except.bind (disassemble_operand p2.2 true wide) fun p3 =>
    .ok ("NUMLTE \t" ++ p1.1 ++ "\t" ++ p2.1 ++ "\t" ++ p3.1 ++ "\n", false, p3.2)
  | 65 => -- NUMGTE
    Except.bind (disassemble_operand code true wide) fun p1 =>
    Except.bind (disassemble_operand p1.2 true wide) fun p2 =>
    Except.bind (disassemble_operand p2.2 true wide) fun p3 =>
    .ok ("NUMGTE \t" ++ p1.1 ++ "\t" ++ p2.1 ++ "\t" ++ p3.1 ++ "\n", false, p3.2)
  | 66 => -- INC
    Except.bind (disassemble_operand code true wide) fun p1 =>
    Except.bind (disassemble_immediate p1.2 wide) fun p2 =>
    .ok ("INC    \t" ++ p1.1 ++ "\t" ++ p2.1 ++ "\n", false, p2.2)
  | 67 => -- DEC
    Except.bind (disassemble_operand code true wide) fun p1 =>
    Except.bind (disassemble_immediate p1.2 wide) fun p2 =>
    .ok ("DEC    \t" ++ p1.1 ++ "\t" ++ p2.1 ++ "\n", false, p2.2)
  | 68 => -- CONS
    Except.bind (disassemble_operand code true wide) fun p1 =>
    Except.bind (disassemble_operand p1.2 true wide) fun p2 =>
    Except.bind (disassemble_operand p2.2 true wide) fun p3 =>
    .ok ("CONS   \t" ++ "R(" ++ p1.1 ++ ")" ++ "\tconscell(R(" ++ p2.1 ++ "), R(" ++
      p3.1 ++ ")" ++ "\n", false, p3.2)
  | 69 => -- CAR
    Except.bind (disassemble_operand code true wide) fun p1 =>
    Except.bind (disassemble_operand p1.2 true wide) fun p2 =>
    .ok ("CAR    " ++ p1.1 ++ "\t" ++ p2.1 ++ "\n", false, p2.2)
  | 70 => -- CDR
    Except.bind (disassemble_operand code true wide) fun p1 =>
    Except.bind (disassemble_operand p1.2 true wide) fun p2 =>
    .ok ("CDR    " ++ p1.1 ++ "\t" ++ p2.1 ++ "\n", false, p2.2)
  | 71 => -- XAR
    Except.bind (disassemble_operand code true wide) fun p1 =>
    Except.bind (disassemble_operand p1.2 true wide) fun p2 =>
    .ok ("XAR    " ++ p1.1 ++ "\t" ++ p2.1 ++ "\n", false, p2.2)
  | 72 => -- XDR
    Except.bind (disassemble_operand code true wide) fun p1 =>
    Except.bind (disassemble_operand p1.2 true wide) fun p2 =>
    .ok ("XDR    " ++ p1.1 ++ "\t" ++ p2.1 ++ "\n", false, p2.2)
  | 73 => -- LIST
    Except.bind (disassemble_operand code true wide) fun p1 =>
    Except.bind (disassemble_operand p1.2 true wide) fun p2 =>
    Except.bind (disassemble_operand p2.2 true wide) fun p3 =>
    .ok ("LIST    \t" ++ p1.1 ++ "\t" ++ p2.1 ++ "\t" ++ p3.1 ++ "\n", false, p3.2)
  | 74 => -- APND
    Except.bind (disassemble_operand code true wide) fun p1 =>
    Except.bind (disassemble_operand p1.2 true wide) fun p2 =>
    Except.bind (disassemble_operand p2.2 true wide) fun p3 =>
    .ok ("APND    \t" ++ p1.1 ++ "\t" ++ p2.1 ++ "\t" ++ p3.1 ++ "\n", false, p3.2)
  | 75 => -- VECMK
    Except.bind (disassemble_operand code true wide) fun p1 =>
    Except.bind (disassemble_operand p1.2 true wide) fun p2 =>
    .ok ("VECMK  \t" ++ p1.1 ++ "\t" ++ p2.1 ++ "\n", false, p2.2)
  | 76 => -- VECELS
    Except.bind (disassemble_operand code true wide) fun p1 =>
    Except.bind (disassemble_operand p1.2 true wide) fun p2 =>
    .ok ("VECELS \t" ++ p1.1 ++ "\t" ++ p2.1 ++ "\n", false, p2.2)
  | 77 => -- VECPSH
    Except.bind (disassemble_operand code true wide) fun p1 =>
    Except.bind (disassemble_operand p1.2 true wide) fun p2 =>
    .ok ("VECPSH \t" ++ p1.1 ++ "\t" ++ p2.1 ++ "\n", false, p2.2)
  | 78 => -- VECPOP
    Except.bind (disassemble_operand code true wide) fun p1 =>
    Except.bind (disassemble_operand p1.2 true wide) fun p2 =>
    .ok ("VECPOP \t" ++ p1.1 ++ "\t" ++ p2.1 ++ "\n", false, p2.2)
  | 79 => -- VECNTH
    Except.bind (disassemble_operand code true wide) fun p1 =>
    Except.bind (disassemble_operand p1.2 true wide) fun p2 =>
    Except.bind (disassemble_operand p2.2 true wide) fun p3 =>
    .ok ("VECNTH \t" ++ p1.1 ++ "\t" ++ p2.1 ++ "\t" ++ p3.1 ++ "\n", false, p3.2)
  | 80 => -- VECSTH
    Except.bind (disassemble_operand code true wide) fun p1 =>
    Except.bind (disassemble_operand p1.2 true wide) fun p2 =>
    Except.bind (disassemble_operand p2.2 true wide) fun p3 =>
    .ok ("VECSTH \t" ++ p1.1 ++ "\t" ++ p2.1 ++ "\t" ++ p3.1 ++ "\n", false, p3.2)
  | 81 => -- VECMKD
    Except.bind (disassemble_operand code true wide) fun p1 =>
    Except.bind (disassemble_operand p1.2 true wide) fun p2 =>
    Except.bind (disassemble_operand p2.2 true wide) fun p3 =>
    .ok ("VECMKD \t" ++ p1.1 ++ "\t" ++ p2.1 ++ "\t" ++ p3.1 ++ "\n", false, p3.2)
  | 82 => -- VEC
    Except.bind (disassemble_operand code true wide) fun p1 =>
    Except.bind (disassemble_operand p1.2 true wide) fun p2 =>
    Except.bind (disassemble_operand p2.2 true wide) fun p3 =>
    .ok ("VEC     \t" ++ p1.1 ++ "\t" ++ p2.1 ++ "\t" ++ p3.1 ++ "\n", false, p3.2)
  | 83 => -- VECLEN
    Except.bind (disassemble_operand code true wide) fun p1 =>
    Except.bind (disassemble_operand p1.2 true wide) fun p2 =>
    .ok ("VECLEN  \t" ++ p1.1 ++ "\t" ++ p2.1 ++ "\n", false, p2.2)
  | 84 => -- VECCLR
    Except.bind (disassemble_operand code true wide) fun p1 =>
    .ok ("VECCLR  \t" ++ p1.1 ++ "\n", false, p1.2)
  | 85 => -- STR
    Except.bind (disassemble_operand code true wide) fun p1 =>
    Except.bind (disassemble_operand p1.2 true wide) fun p2 =>
    Except.bind (disassemble_operand p2.2 true wide) fun p3 =>
    .ok ("STR     \t" ++ p1.1 ++ "\t" ++ p2.1 ++ "\t" ++ p3.1 ++ "\n", false, p3.2)
  | 86 => -- TYPE
    Except.bind (disassemble_operand code true wide) fun p1 =>
    Except.bind (disassemble_operand p1.2 true wide) fun p2 =>
    .ok ("TYPE    \t" ++ p1.1 ++ "\t" ++ p2.1 ++ "\n", false, p2.2)
  | _ => .error (VMError.new_chunk ("ERROR: unknown opcode " ++ toString op))

/-- Every successful result of this computation carries a `false` wide flag. -/
def okFlagFalse (e : Except VMError (String × Bool × ByteIter)) : Prop :=
  ∀ r, e = .ok r → r.2.1 = false

/-! ### A spec-modelled encoder and the decode round trip -/

/-- An instruction together with its operand values, one constructor per
non-prefix opcode.  Modelled from the spec: the encoder (`chunk.rs`) is not
under `src/`; §4.2 fixes each instruction as an opcode byte followed by a
fixed-arity, opcode-specific operand list. -/
inductive Instr where
  | nop -- NOP
  | halt -- HALT
  | ret -- RET
  | sret (a1 : Nat) -- SRET
  | mov (a1 a2 : Nat) -- MOV
  | set (a1 a2 : Nat) -- SET
  | const (a1 a2 : Nat) -- CONST
  | ref (a1 a2 : Nat) -- REF
  | defOp (a1 a2 : Nat) -- DEF
  | defv (a1 a2 : Nat) -- DEFV
  | refi (a1 a2 : Nat) -- REFI
  | clrreg (a1 : Nat) -- CLRREG
  | regt (a1 : Nat) -- REGT
  | regf (a1 : Nat) -- REGF
  | regn (a1 : Nat) -- REGN
  | regc (a1 : Nat) -- REGC
  | regb (a1 a2 : Nat) -- REGB
  | regi (a1 a2 : Nat) -- REGI
  | regu (a1 a2 : Nat) -- REGU
  | close (a1 a2 : Nat) -- CLOSE
  | bmov (a1 a2 a3 : Nat) -- BMOV
  | call (a1 a2 a3 : Nat) -- CALL
  | callg (a1 a2 a3 : Nat) -- CALLG
  | tcall (a1 a2 : Nat) -- TCALL
  | tcallg (a1 a2 : Nat) -- TCALLG
  | callm (a1 a2 : Nat) -- CALLM
  | tcallm (a1 : Nat) -- TCALLM
  | eq (a1 a2 a3 : Nat) -- EQ
  | equal (a1 a2 a3 : Nat) -- EQUAL
  | not (a1 a2 : Nat) -- NOT
  | err (a1 a2 : Nat) -- ERR
  | ccc (a1 a2 : Nat) -- CCC
  | dfr (a1 : Nat) -- DFR
  | dfrpop -- DFRPOP
  | onerr (a1 : Nat) -- ONERR
  | jmp (a1 : Nat) -- JMP
  | jmpf (a1 : Nat) -- JMPF
  | jmpb (a1 : Nat) -- JMPB
  | jmpft (a1 a2 : Nat) -- JMPFT
  | jmpbt (a1 a2 : Nat) -- JMPBT
  | jmpff (a1 a2 : Nat) -- JMPFF
  | jmpbf (a1 a2 : Nat) -- JMPBF
  | jmp_t (a1 a2 : Nat) -- JMP_T
  | jmp_f (a1 a2 : Nat) -- JMP_F
  | jmpeq (a1 a2 a3 : Nat) -- JMPEQ
  | jmplt (a1 a2 a3 : Nat) -- JMPLT
  | jmpgt (a1 a2 a3 : Nat) -- JMPGT
  | jmpfu (a1 a2 : Nat) -- JMPFU
  | jmpbu (a1 a2 : Nat) -- JMPBU
  | jmpfnu (a1 a2 : Nat) -- JMPFNU
  | jmpbnu (a1 a2 : Nat) -- JMPBNU
  | add (a1 a2 a3 : Nat) -- ADD
  | sub (a1 a2 a3 : Nat) -- SUB
  | mul (a1 a2 a3 : Nat) -- MUL
  | div (a1 a2 a3 : Nat) -- DIV
  | addm (a1 a2 a3 : Nat) -- ADDM
  | subm (a1 a2 a3 : Nat) -- SUBM
  | mulm (a1 a2 a3 : Nat) -- MULM
  | divm (a1 a2 a3 : Nat) -- DIVM
  | numeq (a1 a2 a3 : Nat) -- NUMEQ
  | numneq (a1 a2 a3 : Nat) -- NUMNEQ
  | numlt (a1 a2 a3 : Nat) -- NUMLT
  | numgt (a1 a2 a3 : Nat) -- NUMGT
  | numlte (a1 a2 a3 : Nat) -- NUMLTE
  | numgte (a1 a2 a3 : Nat) -- NUMGTE
  | inc (a1 a2 : Nat) -- INC
  | dec (a1 a2 : Nat) -- DEC
  | cons (a1 a2 a3 : Nat) -- CONS
  | car (a1 a2 : Nat) -- CAR
  | cdr (a1 a2 : Nat) -- CDR
  | xar (a1 a2 : Nat) -- XAR
  | xdr (a1 a2 : Nat) -- XDR
  | list (a1 a2 a3 : Nat) -- LIST
  | apnd (a1 a2 a3 : Nat) -- APND
  | vecmk (a1 a2 : Nat) -- VECMK
  | vecels (a1 a2 : Nat) -- VECELS
  | vecpsh (a1 a2 : Nat) -- VECPSH
  | vecpop (a1 a2 : Nat) -- VECPOP
  | vecnth (a1 a2 a3 : Nat) -- VECNTH
  | vecsth (a1 a2 a3 : Nat) -- VECSTH
  | vecmkd (a1 a2 a3 : Nat) -- VECMKD
  | vec (a1 a2 a3 : Nat) -- VEC
  | veclen (a1 a2 : Nat) -- VECLEN
  | vecclr (a1 : Nat) -- VECCLR
  | str (a1 a2 a3 : Nat) -- STR
  | type (a1 a2 : Nat) -- TYPE

/-- The opcode byte of an instruction. -/
def opcodeOf : Instr → Nat
  | .nop => NOP
  | .halt => HALT
  | .ret => RET
  | .sret _ => SRET
  | .mov _ _ => MOV
  | .set _ _ => SET
  | .const _ _ => CONST
  | .ref _ _ => REF
  | .defOp _ _ => DEF
  | .defv _ _ => DEFV
  | .refi _ _ => REFI
  | .clrreg _ => CLRREG
  | .regt _ => REGT
  | .regf _ => REGF
  | .regn _ => REGN
  | .regc _ => REGC
  | .regb _ _ => REGB
  | .regi _ _ => REGI
  | .regu _ _ => REGU
  | .close _ _ => CLOSE
  | .bmov _ _ _ => BMOV
  | .call _ _ _ => CALL
  | .callg _ _ _ => CALLG
  | .tcall _ _ => TCALL
  | .tcallg _ _ => TCALLG
  | .callm _ _ => CALLM
  | .tcallm _ => TCALLM
  | .eq _ _ _ => EQ
  | .equal _ _ _ => EQUAL
  | .not _ _ => NOT
  | .err _ _ => ERR
  | .ccc _ _ => CCC
  | .dfr _ => DFR
  | .dfrpop => DFRPOP
  | .onerr _ => ONERR
  | .jmp _ => JMP
  | .jmpf _ => JMPF
  | .jmpb _ => JMPB
  | .jmpft _ _ => JMPFT
  | .jmpbt _ _ => JMPBT
  | .jmpff _ _ => JMPFF
  | .jmpbf _ _ => JMPBF
  | .jmp_t _ _ => JMP_T
  | .jmp_f _ _ => JMP_F
  | .jmpeq _ _ _ => JMPEQ
  | .jmplt _ _ _ => JMPLT
  | .jmpgt _ _ _ => JMPGT
  | .jmpfu _ _ => JMPFU
  | .jmpbu _ _ => JMPBU
  | .jmpfnu _ _ => JMPFNU
  | .jmpbnu _ _ => JMPBNU
  | .add _ _ _ => ADD
  | .sub _ _ _ => SUB
  | .mul _ _ _ => MUL
  | .div _ _ _ => DIV
  | .addm _ _ _ => ADDM
  | .subm _ _ _ => SUBM
  | .mulm _ _ _ => MULM
  | .divm _ _ _ => DIVM
  | .numeq _ _ _ => NUMEQ
  | .numneq _ _ _ => NUMNEQ
  | .numlt _ _ _ => NUMLT
  | .numgt _ _ _ => NUMGT
  | .numlte _ _ _ => NUMLTE
  | .numgte _ _ _ => NUMGTE
  | .inc _ _ => INC
  | .dec _ _ => DEC
  | .cons _ _ _ => CONS
  | .car _ _ => CAR
  | .cdr _ _ => CDR
  | .xar _ _ => XAR
  | .xdr _ _ => XDR
  | .list _ _ _ => LIST
  | .apnd _ _ _ => APND
  | .vecmk _ _ => VECMK
  | .vecels _ _ => VECELS
  | .vecpsh _ _ => VECPSH
  | .vecpop _ _ => VECPOP
  | .vecnth _ _ _ => VECNTH
  | .vecsth _ _ _ => VECSTH
  | .vecmkd _ _ _ => VECMKD
  | .vec _ _ _ => VEC
  | .veclen _ _ => VECLEN
  | .vecclr _ => VECCLR
  | .str _ _ _ => STR
  | .type _ _ => TYPE

/-- Modelled from the spec (§4.2): operand encodings.  A register/constant
operand and a plain immediate are one byte narrow, two bytes (big-endian)
wide. -/
def enc_operand (w : Bool) (v : Nat) : List Nat :=
  if w then [v / 256 % 256, v % 256] else [v % 256]

/-- Modelled from the spec (§4.2): a big immediate is two bytes narrow, four
bytes (big-endian) wide. -/
def enc_big (w : Bool) (v : Nat) : List Nat :=
  if w then [v / 16777216 % 256, v / 65536 % 256, v / 256 % 256, v % 256]
  else [v / 256 % 256, v % 256]

/-- Modelled from the spec (§4.2): the operand bytes emitted after the opcode
byte for one instruction, in operand order. -/
def encode_ops : Instr → Bool → List Nat
  | .nop, _ => []
  | .halt, _ => []
  | .ret, _ => []
  | .sret a1, w => enc_operand w a1
  | .mov a1 a2, w => enc_operand w a1 ++ enc_operand w a2
  | .set a1 a2, w => enc_operand w a1 ++ enc_operand w a2
  | .const a1 a2, w => enc_operand w a1 ++ enc_operand w a2
  | .ref a1 a2, w => enc_operand w a1 ++ enc_operand w a2
  | .defOp a1 a2, w => enc_operand w a1 ++ enc_operand w a2
  | .defv a1 a2, w => enc_operand w a1 ++ enc_operand w a2
  | .refi a1 a2, w => enc_operand w a1 ++ enc_big w a2
  | .clrreg a1, w => enc_operand w a1
  | .regt a1, w => enc_operand w a1
  | .regf a1, w => enc_operand w a1
  | .regn a1, w => enc_operand w a1
  | .regc a1, w => enc_operand w a1
  | .regb a1 a2, w => enc_operand w a1 ++ enc_operand w a2
  | .regi a1 a2, w => enc_operand w a1 ++ enc_operand w a2
  | .regu a1 a2, w => enc_operand w a1 ++ enc_operand w a2
  | .close a1 a2, w => enc_operand w a1 ++ enc_operand w a2
  | .bmov a1 a2 a3, w => enc_operand w a1 ++ enc_operand w a2 ++ enc_operand w a3
  | .call a1 a2 a3, w => enc_operand w a1 ++ enc_operand w a2 ++ enc_operand w a3
  | .callg a1 a2 a3, w => enc_big w a1 ++ enc_operand w a2 ++ enc_operand w a3
  | .tcall a1 a2, w => enc_operand w a1 ++ enc_operand w a2
  | .tcallg a1 a2, w => enc_big w a1 ++ enc_operand w a2
  | .callm a1 a2, w => enc_operand w a1 ++ enc_operand w a2
  | .tcallm a1, w => enc_operand w a1
  | .eq a1 a2 a3, w => enc_operand w a1 ++ enc_operand w a2 ++ enc_operand w a3
  | .equal a1 a2 a3, w => enc_operand w a1 ++ enc_operand w a2 ++ enc_operand w a3
  | .not a1 a2, w => enc_operand w a1 ++ enc_operand w a2
  | .err a1 a2, w => enc_operand w a1 ++ enc_operand w a2
  | .ccc a1 a2, w => enc_operand w a1 ++ enc_operand w a2
  | .dfr a1, w => enc_operand w a1
  | .dfrpop, _ => []
  | .onerr a1, w => enc_operand w a1
  | .jmp a1, w => enc_operand w a1
  | .jmpf a1, w => enc_operand w a1
  | .jmpb a1, w => enc_operand w a1
  | .jmpft a1 a2, w => enc_operand w a1 ++ enc_operand w a2
  | .jmpbt a1 a2, w => enc_operand w a1 ++ enc_operand w a2
  | .jmpff a1 a2, w => enc_operand w a1 ++ enc_operand w a2
  | .jmpbf a1 a2, w => enc_operand w a1 ++ enc_operand w a2
  | .jmp_t a1 a2, w => enc_operand w a1 ++ enc_operand w a2
  | .jmp_f a1 a2, w => enc_operand w a1 ++ enc_operand w a2
  | .jmpeq a1 a2 a3, w => enc_operand w a1 ++ enc_operand w a2 ++ enc_operand w a3
  | .jmplt a1 a2 a3, w => enc_operand w a1 ++ enc_operand w a2 ++ enc_operand w a3
  | .jmpgt a1 a2 a3, w => enc_operand w a1 ++ enc_operand w a2 ++ enc_operand w a3
  | .jmpfu a1 a2, w => enc_operand w a1 ++ enc_operand w a2
  | .jmpbu a1 a2, w => enc_operand w a1 ++ enc_operand w a2
  | .jmpfnu a1 a2, w => enc_operand w a1 ++ enc_operand w a2
  | .jmpbnu a1 a2, w => enc_operand w a1 ++ enc_operand w a2
  | .add a1 a2 a3, w => enc_operand w a1 ++ enc_operand w a2 ++ enc_operand w a3
  | .sub a1 a2 a3, w => enc_operand w a1 ++ enc_operand w a2 ++ enc_operand w a3
  | .mul a1 a2 a3, w => enc_operand w a1 ++ enc_operand w a2 ++ enc_operand w a3
  | .div a1 a2 a3, w => enc_operand w a1 ++ enc_operand w a2 ++ enc_operand w a3
  | .addm a1 a2 a3, w => enc_operand w a1 ++ enc_operand w a2 ++ enc_operand w a3
  | .subm a1 a2 a3, w => enc_operand w a1 ++ enc_operand w a2 ++ enc_operand w a3
  | .mulm a1 a2 a3, w => enc_operand w a1 ++ enc_operand w a2 ++ enc_operand w a3
  | .divm a1 a2 a3, w => enc_operand w a1 ++ enc_operand w a2 ++ enc_operand w a3
  | .numeq a1 a2 a3, w => enc_operand w a1 ++ enc_operand w a2 ++ enc_operand w a3
  | .numneq a1 a2 a3, w => enc_operand w a1 ++ enc_operand w a2 ++ enc_operand w a3
  | .numlt a1 a2 a3, w => enc_operand w a1 ++ enc_operand w a2 ++ enc_operand w a3
  | .numgt a1 a2 a3, w => enc_operand w a1 ++ enc_operand w a2 ++ enc_operand w a3
  | .numlte a1 a2 a3, w => enc_operand w a1 ++ enc_operand w a2 ++ enc_operand w a3
  | .numgte a1 a2 a3, w => enc_operand w a1 ++ enc_operand w a2 ++ enc_operand w a3
  | .inc a1 a2, w => enc_operand w a1 ++ enc_operand w a2
  | .dec a1 a2, w => enc_operand w a1 ++ enc_operand w a2
  | .cons a1 a2 a3, w => enc_operand w a1 ++ enc_operand w a2 ++ enc_operand w a3
  | .car a1 a2, w => enc_operand w a1 ++ enc_operand w a2
  | .cdr a1 a2, w => enc_operand w a1 ++ enc_operand w a2
  | .xar a1 a2, w => enc_operand w a1 ++ enc_operand w a2
  | .xdr a1 a2, w => enc_operand w a1 ++ enc_operand w a2
  | .list a1 a2 a3, w => enc_operand w a1 ++ enc_operand w a2 ++ enc_operand w a3
  | .apnd a1 a2 a3, w => enc_operand w a1 ++ enc_operand w a2 ++ enc_operand w a3
  | .vecmk a1 a2, w => enc_operand w a1 ++ enc_operand w a2
  | .vecels a1 a2, w => enc_operand w a1 ++ enc_operand w a2
  | .vecpsh a1 a2, w => enc_operand w a1 ++ enc_operand w a2
  | .vecpop a1 a2, w => enc_operand w a1 ++ enc_operand w a2
  | .vecnth a1 a2 a3, w => enc_operand w a1 ++ enc_operand w a2 ++ enc_operand w a3
  | .vecsth a1 a2 a3, w => enc_operand w a1 ++ enc_operand w a2 ++ enc_operand w a3
  | .vecmkd a1 a2 a3, w => enc_operand w a1 ++ enc_operand w a2 ++ enc_operand w a3
  | .vec a1 a2 a3, w => enc_operand w a1 ++ enc_operand w a2 ++ enc_operand w a3
  | .veclen a1 a2, w => enc_operand w a1 ++ enc_operand w a2
  | .vecclr a1, w => enc_operand w a1
  | .str a1 a2 a3, w => enc_operand w a1 ++ enc_operand w a2 ++ enc_operand w a3
  | .type a1 a2, w => enc_operand w a1 ++ enc_operand w a2

/-- Modelled from the spec (§4.2): a complete encoded instruction, optionally
preceded by the one-shot `WIDE` prefix byte that selects the wide widths. -/
def encode_instr (w : Bool) (i : Instr) : List Nat :=
  (if w then [WIDE] else []) ++ opcodeOf i :: encode_ops i w

/-- A well-formed instruction stream produced by the encoder. -/
def encode_stream : List (Bool × Instr) → List Nat
  | [] => []
  | (w, i) :: rest => encode_instr w i ++ encode_stream rest

/-- Number of decode-loop iterations a stream takes (a `WIDE` prefix costs one
extra iteration). -/
def iterCount : List (Bool × Instr) → Nat
  | [] => 0
  | (w, _) :: rest => (if w then 2 else 1) + iterCount rest

/-! ### Values, chunks and the VM state seen by the introspection layer -/

mutual
/-- The `Value` variants the introspection layer inspects: `Value::Value`
(a boxed-value handle), `Value::CallFrame` (a frame marker on the stack),
`Value::Lambda`/`Value::Closure` (code constants), `Value::Keyword`, integers
read by `get_int`, plus an opaque stand-in for every other variant (the dump
and disassembly code treats all of those uniformly).  Since `heap.rs` is not
under `src/`, lambda/closure constants carry their chunk directly (the spec,
§3, makes chunks immutable shared data reachable from such constants). -/
inductive Value where
  | byte (b : Nat)
  | int (i : Int)
  | value (h : Nat)
  | callFrame (h : Nat)
  | lambda (c : Chunk)
  | closure (c : Chunk)
  | keyword (k : Nat)
  | nil
  | other (tag : Nat)

/-- A code object: §6 of the spec (chunk.rs is not under `src/`): constant
pool, instruction byte stream, declared input/extra register counts, optional
debug-argument and capture lists, and an offset-to-source-line mapping. -/
inductive Chunk where
  | mk (file_name : String) (code : List Nat) (constants : List Value)
      (input_regs : Nat) (extra_regs : Nat) (dbg_args : Option (List Nat))
      (captures : Option (List Nat)) (line_map : List (Nat × Nat))
end

def Chunk.file_name : Chunk → String
  | .mk fn _ _ _ _ _ _ _ => fn

def Chunk.code : Chunk → List Nat
  | .mk _ co _ _ _ _ _ _ => co

def Chunk.constants : Chunk → List Value
  | .mk _ _ k _ _ _ _ _ => k

def Chunk.input_regs : Chunk → Nat
  | .mk _ _ _ ir _ _ _ _ => ir

def Chunk.extra_regs : Chunk → Nat
  | .mk _ _ _ _ er _ _ _ => er

def Chunk.dbg_args : Chunk → Option (List Nat)
  | .mk _ _ _ _ _ da _ _ => da

def Chunk.captures : Chunk → Option (List Nat)
  | .mk _ _ _ _ _ _ cap _ => cap

def Chunk.line_map : Chunk → List (Nat × Nat)
  | .mk _ _ _ _ _ _ _ lm => lm

/-- Modelled from the spec: `Chunk::offset_to_line` lives in chunk.rs, not
under `src/`; §6 specifies "a mapping from instruction offset to source line
for diagnostics", carried here as the chunk's `line_map`. -/
def Chunk.offset_to_line (c : Chunk) (offset : Nat) : Option Nat :=
  c.line_map.lookup offset

instance : Inhabited Chunk := ⟨.mk "" [] [] 0 0 none none []⟩

/-- Spec §3: a call frame records the owning chunk, the window's base
offset into the stack, the saved instruction pointer and a frame id
(`heap.rs` is not under `src/`; these are the fields debug.rs reads). -/
structure CallFrame where
  chunk : Chunk
  stack_top : Nat
  current_ip : Nat
  id : Nat

instance : Inhabited CallFrame := ⟨default, 0, 0, 0⟩

/-- Modelled from the spec: the parts of the `Vm` state that the introspection
layer reads (vm.rs is not under `src/`): the value stack, the heap storage
behind `CallFrame` handles, the live call stack (innermost frame first, §6),
the retained error frame, the global table and the interned-string table. -/
structure Vm where
  stack : List Value
  frames : List CallFrame
  call_stack : List CallFrame
  err_frame_v : Option CallFrame
  globals : List (Nat × Value)
  interned : List String

/-- Modelled from the spec: stack slot access. -/
def Vm.get_stack (vm : Vm) (i : Nat) : Value := vm.stack.getD i Value.nil

/-- Modelled from the spec: index of the top of the value stack. -/
def Vm.stack_max (vm : Vm) : Nat := vm.stack.length - 1

/-- Modelled from the spec: dereference a `CallFrame` handle. -/
def Vm.get_callframe (vm : Vm) (h : Nat) : CallFrame := vm.frames.getD h default

/-- Modelled from the spec: interned-symbol lookup. -/
def Vm.get_interned (vm : Vm) (n : Nat) : String := vm.interned.getD n ""

/-- Modelled from the spec: the retained error frame (§6). -/
def Vm.err_frame (vm : Vm) : Option CallFrame := vm.err_frame_v

/-- Modelled from the spec: enumerate the live call stack, innermost first
(§6). -/
def Vm.get_call_stack (vm : Vm) : List CallFrame := vm.call_stack

/-- Modelled from the spec: a frame's register window is a contiguous slice
`start..end` of the value stack (§3). -/
def Vm.get_registers (vm : Vm) (start e : Nat) : List Value :=
  (vm.stack.drop start).take (e - start)

/-- Modelled from the spec: `Value::display_value` lives in value.rs, not
under `src/`; only the fact that it renders a value to text matters here. -/
def Value.display_value (v : Value) (_vm : Vm) : String :=
  match v with
  | .byte b => toString b
  | .int i => toString i
  | .value _ => "#<Boxed>"
  | .callFrame _ => "#<CallFrame>"
  | .lambda _ => "#<Lambda>"
  | .closure _ => "#<Closure>"
  | .keyword _ => "#<Keyword>"
  | .nil => "nil"
  | .other _ => "#<Object>"

/-- Modelled from the spec: `Value::display_type` (value.rs, not under
`src/`). -/
def Value.display_type (v : Value) (_vm : Vm) : String :=
  match v with
  | .byte _ => "Byte"
  | .int _ => "Int"
  | .value _ => "Boxed"
  | .callFrame _ => "CallFrame"
  | .lambda _ => "Lambda"
  | .closure _ => "Closure"
  | .keyword _ => "Keyword"
  | .nil => "Nil"
  | .other _ => "Object"

/-- Modelled from the spec: `Value::pretty_value` (value.rs, not under
`src/`). -/
def Value.pretty_value (v : Value) (vm : Vm) : String := v.display_value vm

/-- The `indent` helper of `disassemble_chunk`: one tab per level. -/
def indentStr (n : Nat) : String := String.join (List.replicate n "\t")

/-- Rust right-aligned six-column string formatting, as used for the source
line number. -/
def pad6 (s : String) : String :=
  String.mk (List.replicate (6 - s.length) ' ') ++ s

/-- The offset and source-line columns printed before one instruction by the
loop of `disassemble_chunk`: the indent, the eight-digit hex offset, then
either the right-aligned source line (when the line table knows this offset and the line
differs from the last one printed) or the `     | ` placeholder. -/
def linePrefix (ch : Chunk) (indent_level idx last_line : Nat) : String :=
  indentStr indent_level ++ hexFmt 8 idx ++ " " ++
    (match ch.offset_to_line idx with
     | some line_number =>
       if last_line ≠ line_number then pad6 (toString line_number) ++ " "
       else "     | "
     | none => "     | ")

/-- The `last_line` state after printing at `idx`: updated exactly when a line
number was printed. -/
def nextLastLine (ch : Chunk) (idx last_line : Nat) : Nat :=
  match ch.offset_to_line idx with
  | some line_number => if last_line ≠ line_number then line_number else last_line
  | none => last_line

/-- The instruction loop at the end of `Chunk::disassemble_chunk`: per
instruction print the offset/line prefix, then the decoded instruction; the
wide flag returned by each instruction is handed to the next iteration.
`fuel` only bounds the recursion; the caller passes `code.length + 1` and
every iteration consumes at least the opcode byte, so the out-of-fuel branch
is unreachable. -/
def disLoop (ch : Chunk) (indent_level : Nat) (fuel : Nat) (code : ByteIter)
    (last_line : Nat) (wide : Bool) : Except VMError (List String) :=
  match fuel with
  | 0 => .error (VMError.new_chunk "internal: disassembly loop out of fuel")
  | fuel + 1 =>
    match code.next with
    | none => .ok []
    | some (p, code1) =>
      Except.bind (disassemble_instruction code1 p.2 wide) fun q =>
      Except.bind
        (disLoop ch indent_level fuel q.2.2 (nextLastLine ch p.1 last_line) q.2.1)
        fun restL =>
      .ok ((linePrefix ch indent_level p.1 last_line ++ q.1) :: restL)

mutual
/-- Function `Chunk::disassemble_chunk` of disassemble.rs: print the constant pool (recursing into
Lambda / Closure constants one indent level deeper), a blank line, the capture
list when present, then the instruction loop.  The `Vm` is threaded through
and returned so that the read-only claim can be stated. -/
def disassemble_chunk (vm : Vm) (c : Chunk) (indent_level : Nat) :
    Except VMError (List String × Vm) :=
  Except.bind (disConstants vm c.constants 0 indent_level) fun cres =>
  Except.bind (disLoop c indent_level (c.code.length + 1) ⟨0, c.code⟩ 0 false) fun ls =>
  .ok ((indentStr indent_level ++ "CONSTANTS:\n") ::
        (cres.1 ++ "\n" ::
          ((match c.captures with
            | some caps => [indentStr indent_level ++ "Captures: " ++ toString caps ++ "\n"]
            | none => []) ++ ls)), cres.2)
termination_by sizeOf c
decreasing_by
  all_goals simp_wf
  cases c
  simp_all [Chunk.constants]
  omega

/-- The `for (i, v) in self.constants.iter().enumerate()` loop of
`disassemble_chunk`: print each constant, recursing into Lambda and Closure
constants at `indent_level + 1`. -/
def disConstants (vm : Vm) (vs : List Value) (i : Nat) (indent_level : Nat) :
    Except VMError (List String × Vm) :=
  match vs with
  | [] => .ok ([], vm)
  | v :: rest =>
    let line := indentStr indent_level ++ toString i ++ ": " ++ v.display_value vm ++ "\n"
    Except.bind
      (match v with
       | .lambda c2 => disassemble_chunk vm c2 (indent_level + 1)
       | .closure c2 => disassemble_chunk vm c2 (indent_level + 1)
       | _ => .ok ([], vm)) fun sub =>
    Except.bind (disConstants sub.2 rest (i + 1) indent_level) fun restL =>
    .ok (line :: (sub.1 ++ restL.1), restL.2)
termination_by sizeOf vs
decreasing_by
  all_goals simp_wf
  all_goals first
    | omega
    | (simp_all; omega)
end

/-! ### The debugger layer: register, stack and global dumps, frame selection -/

/-- Function `dump_regs` of debug.rs, the register loop: pair each register with its printed name
(slot 0 is `params/result`; afterwards the `dbg_args` iterator is advanced
once per register while names remain, then `[SCRATCH]`).  The printed line
formatting (`display_type`, `pretty_value`, the `^` marker on boxed values) is
presentation; each entry carries (index, name, value), and the `Vm` is
threaded through unchanged so the read-only claim can be stated. -/
def dump_regs_loop (vm : Vm) (regs : List Value) (i : Nat)
    (names : Option (List Nat)) : List (Nat × String × Value) × Vm :=
  match regs with
  | [] => ([], vm)
  | r :: rest =>
    let p : String × Option (List Nat) :=
      if i = 0 then ("params/result", names)
      else
        match names with
        | some (n :: ns) => (vm.get_interned n, some ns)
        | some [] => ("[SCRATCH]", some [])
        | none => ("[SCRATCH]", none)
    let res := dump_regs_loop vm rest (i + 1) p.2
    ((i, p.1, r) :: res.1, res.2)

/-- Function `dump_regs` from debug.rs: dump the window
`stack_top .. stack_top + input_regs + extra_regs + 1` of `frame`. -/
def dump_regs (vm : Vm) (frame : CallFrame) : List (Nat × String × Value) × Vm :=
  let start := frame.stack_top
  let e := frame.stack_top + frame.chunk.input_regs + frame.chunk.extra_regs + 1
  let regs := vm.get_registers start e
  dump_regs_loop vm regs 0 frame.chunk.dbg_args

/-- First loop of `dump_stack`: scan slot `i` for a `CallFrame` marker and
fetch its chunk. -/
def scan_chunk (vm : Vm) (i : Nat) : Option Chunk :=
  match vm.get_stack i with
  | .callFrame h => some (vm.get_callframe h).chunk
  | _ => none

/-- The chunk queue built by `dump_stack`: the chunks of the frames found at
slots `1..=stack_max`, then the error frame's chunk when one is retained. -/
def dump_stack_chunks (vm : Vm) : List Chunk :=
  ((List.range vm.stack_max).map (fun k => k + 1)).filterMap (scan_chunk vm) ++
    (match vm.err_frame with
     | some f => [f.chunk]
     | none => [])

/-- Second loop of `dump_stack`: walk every slot `0..=stack_max`; a
`CallFrame` slot is annotated `RESULT` and pops the next queued chunk to
restart register naming; any other slot advances the name iterator
(`Value::Value` slots get the handle index appended to the name). -/
def dump_stack_loop (vm : Vm) (idxs : List Nat) (names : Option (List Nat))
    (queue : List Chunk) : List (Nat × String × Value) × Vm :=
  match idxs with
  | [] => ([], vm)
  | i :: rest =>
    let r := vm.get_stack i
    match r with
    | .callFrame _ =>
      let nq : Option (List Nat) × List Chunk :=
        match queue with
        | ch :: q2 => (ch.dbg_args, q2)
        | [] => (none, [])
      let res := dump_stack_loop vm rest nq.1 nq.2
      ((i, "RESULT", r) :: res.1, res.2)
    | _ =>
      let p : String × Option (List Nat) :=
        match names with
        | some (n :: ns) => (vm.get_interned n, some ns)
        | some [] => ("[SCRATCH]", some [])
        | none => ("[SCRATCH]", none)
      let nm :=
        match r with
        | .value h => p.1 ++ "(" ++ toString h ++ ")"
        | _ => p.1
      let res := dump_stack_loop vm rest p.2 queue
      ((i, nm, r) :: res.1, res.2)

/-- Function `dump_stack` from debug.rs. -/
def dump_stack (vm : Vm) : List (Nat × String × Value) × Vm :=
  dump_stack_loop vm (List.range (vm.stack_max + 1)) none (dump_stack_chunks vm)

/-- Follows the claim's words, not the source: walk the whole stack bottom to
top in a single pass; each `CallFrame` slot is a window boundary annotated
`RESULT`, and register naming restarts from the chunk of the frame stored in
that very slot. -/
def dump_stack_spec_loop (vm : Vm) (idxs : List Nat)
    (names : Option (List Nat)) : List (Nat × String × Value) :=
  match idxs with
  | [] => []
  | i :: rest =>
    let r := vm.get_stack i
    match r with
    | .callFrame h =>
      (i, "RESULT", r) ::
        dump_stack_spec_loop vm rest ((vm.get_callframe h).chunk.dbg_args)
    | _ =>
      let p : String × Option (List Nat) :=
        match names with
        | some (n :: ns) => (vm.get_interned n, some ns)
        | some [] => ("[SCRATCH]", some [])
        | none => ("[SCRATCH]", none)
      let nm :=
        match r with
        | .value h => p.1 ++ "(" ++ toString h ++ ")"
        | _ => p.1
      (i, nm, r) :: dump_stack_spec_loop vm rest p.2

/-- The claim-side raw stack dump. -/
def dump_stack_spec (vm : Vm) : List (Nat × String × Value) :=
  dump_stack_spec_loop vm (List.range (vm.stack_max + 1)) none

/-- Modelled from the spec: `Vm::dump_globals` (vm.rs, not under `src/`):
render the global binding table; a read-only walk (§6). -/
def dump_globals (vm : Vm) : List String × Vm :=
  (vm.globals.map (fun g => toString g.1 ++ ": " ++ g.2.display_value vm), vm)

/-- The frame-selection loop shared by the `:dasm` and `:regs` commands of
`debug`: enumerate the call stack (innermost first) and act on the frame
whose enumeration index `i` satisfies `i + 1 = stk_idx`. -/
def frame_for_idx (stk_idx : Nat) : List CallFrame → Nat → Option CallFrame
  | [], _ => none
  | f :: rest, i => if i + 1 = stk_idx then some f else frame_for_idx stk_idx rest (i + 1)

/-- Modelled from the spec: `Value::get_int` (value.rs, not under `src/`):
read an integer payload, a recoverable runtime error otherwise. -/
def get_int : Value → Except VMError Int
  | .int i => .ok i
  | _ => .error ⟨ErrClass.runtime, "not an int"⟩

/-- The `:dasm` branch of `debug`: with an argument that parses as an integer
`n`, disassemble the frame at 1-based position `|n|` of the call-stack
enumeration (`stk_idx.abs() as usize`); with no argument fall back to the
retained error frame.  Returns the frame acted on. -/
def debug_dasm_frame (vm : Vm) (arg : Option Value) : Option CallFrame :=
  match arg with
  | some parm =>
    match get_int parm with
    | .ok stk_idx0 => frame_for_idx stk_idx0.natAbs vm.get_call_stack 0
    | .error _ => none
  | none => vm.err_frame

/-- The `:regs` branch of `debug`: identical selection, acting via
`dump_regs`. -/
def debug_regs_frame (vm : Vm) (arg : Option Value) : Option CallFrame :=
  match arg with
  | some parm =>
    match get_int parm with
    | .ok stk_idx0 => frame_for_idx stk_idx0.natAbs vm.get_call_stack 0
    | .error _ => none
  | none => vm.err_frame

instance : Inhabited Vm := ⟨⟨[], [], [], none, [], []⟩⟩

/-- The register label the claim predicts for absolute position `pos` when the
remaining name iterator is `ns` and `k` names have already been consumed. -/
def regLabel (vm : Vm) (names : Option (List Nat)) (k : Nat) : String :=
  match names with
  | none => "[SCRATCH]"
  | some ns => if k < ns.length then vm.get_interned (ns.getD k 0) else "[SCRATCH]"



/-- A chunk with no code, constants or line table, used in concrete scenarios. -/
def chunk0 : Chunk := .mk "" [] [] 0 0 none none []

/-- A one-instruction chunk whose line table maps offset 0 to source line 7. -/
def chunkLine : Chunk := .mk "" [RET] [] 0 0 none none [(0, 7)]

/-- A chunk declaring one input register, no extra registers, and one debug
argument name (interned id 0). -/
def chunkA : Chunk := .mk "a" [] [] 1 0 (some [0]) none []

/-- A frame whose window starts at stack slot 1. -/
def frameA : CallFrame := ⟨chunkA, 1, 0, 7⟩

/-- A second frame for call-stack enumeration scenarios. -/
def frameB : CallFrame := ⟨chunkA, 0, 0, 8⟩

/-- A small concrete VM state: slot 0 holds nil, slot 1 a call-frame marker
(handle 0), slot 2 a byte; one interned name "x". -/
def vmW : Vm :=
  ⟨[Value.nil, Value.callFrame 0, Value.byte 3], [frameA], [frameA, frameB],
    some frameA, [], ["x"]⟩

/-! ### Codec, loop and dump properties used by the claims -/

theorem okFlagFalse_error (e : VMError) : okFlagFalse (.error e) :=
  fun _ h => Except.noConfusion h

theorem okFlagFalse_ok (s : String) (c : ByteIter) : okFlagFalse (.ok (s, false, c)) := by
  intro r h
  injection h with h
  rw [← h]

theorem okFlagFalse_bind {α : Type} (x : Except VMError α)
    (f : α → Except VMError (String × Bool × ByteIter))
    (hf : ∀ a, okFlagFalse (f a)) : okFlagFalse (Except.bind x f) := by
  intro r h
  cases x with
  | error e => exact Except.noConfusion h
  | ok a => exact hf a r h

/-- The `WIDE` arm ignores the incoming flag, decodes nothing, and returns a
`true` wide flag. -/
theorem dis_wide_eq (code : ByteIter) (wide : Bool) :
    disassemble_instruction code WIDE wide
      = .ok ("WIDE(" ++ hexFmt 2 WIDE ++ ")\n", true, code) := rfl

/-- Every arm other than `WIDE` returns `Ok(false)` when it succeeds. -/
theorem dis_flag_false (op : Nat) (code : ByteIter) (wide : Bool) (hne : op ≠ WIDE) :
    okFlagFalse (disassemble_instruction code op wide) := by
  unfold disassemble_instruction
  split <;>
    first
      | exact absurd rfl hne
      | exact okFlagFalse_error _
      | repeat (first | exact okFlagFalse_ok _ _ | (apply okFlagFalse_bind; intro a))

/-- An opcode byte outside the recognized set hits the final match arm and
produces a corrupt-code (`new_chunk`) error. -/
theorem dis_unknown_opcode (op : Nat) (code : ByteIter) (wide : Bool)
    (hmem : op ∉ opcodeList) :
    ∃ m, disassemble_instruction code op wide = .error ⟨ErrClass.chunk, m⟩ := by
  unfold disassemble_instruction
  split <;>
    first
      | exact ⟨_, rfl⟩
      | simp_all [opcodeList, NOP, HALT, RET, SRET, WIDE, MOV, SET, CONST, REF, DEF,
          DEFV, REFI, CLRREG, REGT, REGF, REGN, REGC, REGB, REGI, REGU, CLOSE, BMOV,
          CALL, CALLG, TCALL, TCALLG, CALLM, TCALLM, EQ, EQUAL, NOT, ERR, CCC, DFR,
          DFRPOP, ONERR, JMP, JMPF, JMPB, JMPFT, JMPBT, JMPFF, JMPBF, JMP_T, JMP_F,
          JMPEQ, JMPLT, JMPGT, JMPFU, JMPBU, JMPFNU, JMPBNU, ADD, SUB, MUL, DIV,
          ADDM, SUBM, MULM, DIVM, NUMEQ, NUMNEQ, NUMLT, NUMGT, NUMLTE, NUMGTE, INC,
          DEC, CONS, CAR, CDR, XAR, XDR, LIST, APND, VECMK, VECELS, VECPSH, VECPOP,
          VECNTH, VECSTH, VECMKD, VEC, VECLEN, VECCLR, STR, TYPE]

/-- Decoding a validly encoded instruction (opcode byte already consumed)
succeeds, returns a narrow flag, and consumes exactly the instruction's operand
bytes. -/
theorem dis_encode_ok (i : Instr) (w : Bool) (j : Nat) (rest : List Nat) :
    ∃ s, disassemble_instruction ⟨j, encode_ops i w ++ rest⟩ (opcodeOf i) w
      = .ok (s, false, ⟨j + (encode_ops i w).length, rest⟩) := by
  cases i <;> cases w <;> exact ⟨_, rfl⟩

theorem iterCount_le_length (l : List (Bool × Instr)) :
    iterCount l ≤ (encode_stream l).length := by
  induction l with
  | nil => simp [iterCount, encode_stream]
  | cons p rest ih =>
    obtain ⟨w, i⟩ := p
    simp only [iterCount, encode_stream, encode_instr, List.length_append,
      List.length_cons]
    cases w <;> simp <;> omega



theorem disLoop_nil (ch : Chunk) (ind fuel j ll : Nat) (w : Bool) :
    disLoop ch ind (fuel + 1) ⟨j, []⟩ ll w = .ok [] := rfl

theorem disLoop_cons (ch : Chunk) (ind fuel j ll : Nat) (b : Nat) (tail : List Nat)
    (w : Bool) :
    disLoop ch ind (fuel + 1) ⟨j, b :: tail⟩ ll w =
      Except.bind (disassemble_instruction ⟨j + 1, tail⟩ b w) fun q =>
      Except.bind (disLoop ch ind fuel q.2.2 (nextLastLine ch j ll) q.2.1) fun restL =>
      .ok ((linePrefix ch ind j ll ++ q.1) :: restL) := rfl

theorem disLoop_encode (l : List (Bool × Instr)) :
    ∀ (ch : Chunk) (ind j lastLine fuel : Nat), iterCount l < fuel →
      ∃ out, disLoop ch ind fuel ⟨j, encode_stream l⟩ lastLine false = .ok out := by
  induction l with
  | nil =>
    intro ch ind j lastLine fuel hf
    obtain ⟨fuel, rfl⟩ : ∃ f, fuel = f + 1 := ⟨fuel - 1, by omega⟩
    exact ⟨[], disLoop_nil ch ind fuel j lastLine false⟩
  | cons p rest ih =>
    obtain ⟨w, i⟩ := p
    intro ch ind j lastLine fuel hf
    cases w with
    | false =>
      obtain ⟨fuel, rfl⟩ : ∃ f, fuel = f + 1 := ⟨fuel - 1, by omega⟩
      have hst : encode_stream ((false, i) :: rest)
          = opcodeOf i :: (encode_ops i false ++ encode_stream rest) := by
        simp [encode_stream, encode_instr]
      obtain ⟨s, hs⟩ := dis_encode_ok i false (j + 1) (encode_stream rest)
      obtain ⟨out2, h2⟩ := ih ch ind (j + 1 + (encode_ops i false).length)
        (nextLastLine ch j lastLine) fuel (by simp [iterCount] at hf; omega)
      simp only [hst, disLoop_cons, hs, Except.bind, h2]
      exact ⟨_, rfl⟩
    | true =>
      obtain ⟨fuel, rfl⟩ : ∃ f, fuel = f + 1 := ⟨fuel - 1, by omega⟩
      obtain ⟨fuel, rfl⟩ : ∃ f, fuel = f + 1 :=
        ⟨fuel - 1, by simp [iterCount] at hf; omega⟩
      have hst : encode_stream ((true, i) :: rest)
          = WIDE :: opcodeOf i :: (encode_ops i true ++ encode_stream rest) := by
        simp [encode_stream, encode_instr]
      obtain ⟨s, hs⟩ := dis_encode_ok i true (j + 2) (encode_stream rest)
      obtain ⟨out2, h2⟩ := ih ch ind (j + 2 + (encode_ops i true).length)
        (nextLastLine ch (j + 1) (nextLastLine ch j lastLine)) fuel
        (by simp [iterCount] at hf; omega)
      simp only [hst, disLoop_cons, dis_wide_eq, Except.bind, hs, h2]
      exact ⟨_, rfl⟩

theorem disassemble_chunk_encode (vm : Vm) (l : List (Bool × Instr)) (fn : String)
    (ir er : Nat) (dbg cap : Option (List Nat)) (lm : List (Nat × Nat)) :
    ∃ out,
      disassemble_chunk vm (Chunk.mk fn (encode_stream l) [] ir er dbg cap lm) 0
        = .ok ((indentStr 0 ++ "CONSTANTS:\n") :: "\n" ::
            ((match cap with
              | some caps => [indentStr 0 ++ "Captures: " ++ toString caps ++ "\n"]
              | none => []) ++ out), vm) := by
  have hlen := iterCount_le_length l
  obtain ⟨out, hout⟩ := disLoop_encode l (Chunk.mk fn (encode_stream l) [] ir er dbg cap lm)
    0 0 0 ((encode_stream l).length + 1) (by omega)
  refine ⟨out, ?_⟩
  rw [disassemble_chunk.eq_def]
  simp only [disConstants, Chunk.constants, Chunk.code, Chunk.captures, Except.bind]
  rw [hout]
  simp

theorem dump_regs_loop_vm (vm : Vm) (regs : List Value) :
    ∀ (i : Nat) (names : Option (List Nat)), (dump_regs_loop vm regs i names).2 = vm := by
  induction regs with
  | nil => intro i names; rfl
  | cons r rest ih =>
    intro i names
    simp only [dump_regs_loop]
    exact ih _ _

theorem dump_regs_loop_get_pos (vm : Vm) (regs : List Value) :
    ∀ (i : Nat) (names : Option (List Nat)) (k : Nat), i ≠ 0 → k < regs.length →
      (dump_regs_loop vm regs i names).1[k]?
        = some (i + k, regLabel vm names k, regs.getD k Value.nil) := by
  induction regs with
  | nil => intro i names k _ hk; simp at hk
  | cons r rest ih =>
    intro i names k hi hk
    simp only [dump_regs_loop, if_neg hi]
    match k with
    | 0 =>
      match names with
      | none => simp [regLabel]
      | some [] => simp [regLabel]
      | some (n :: ns) => simp [regLabel]
    | k + 1 =>
      have hk2 : k < rest.length := by simpa using hk
      simp only [List.getElem?_cons_succ]
      match names with
      | none =>
        rw [ih (i + 1) none k (by omega) hk2]
        simp only [Option.some.injEq, Prod.mk.injEq, List.getD_cons_succ]
        exact ⟨by omega, rfl, trivial⟩
      | some [] =>
        rw [ih (i + 1) (some []) k (by omega) hk2]
        simp only [Option.some.injEq, Prod.mk.injEq, List.getD_cons_succ]
        refine ⟨by omega, ?_, trivial⟩
        simp [regLabel]
      | some (n :: ns) =>
        rw [ih (i + 1) (some ns) k (by omega) hk2]
        simp only [Option.some.injEq, Prod.mk.injEq, List.getD_cons_succ]
        refine ⟨by omega, ?_, trivial⟩
        simp [regLabel, List.getD_cons_succ, Nat.succ_lt_succ_iff]

theorem frame_for_idx_eq (frames : List CallFrame) :
    ∀ (stk i : Nat), frame_for_idx stk frames i
      = if stk < i + 1 then none else frames[stk - 1 - i]? := by
  induction frames with
  | nil =>
    intro stk i
    simp [frame_for_idx]
  | cons f rest ih =>
    intro stk i
    simp only [frame_for_idx]
    by_cases h : i + 1 = stk
    · subst h
      simp
    · rw [if_neg h, ih]
      by_cases h2 : stk < i + 1
      · rw [if_pos (by omega), if_pos (by omega)]
      · rw [if_neg (by omega), if_neg (by omega)]
        have h3 : stk - 1 - i = (stk - 1 - (i + 1)) + 1 := by omega
        rw [h3, List.getElem?_cons_succ]

theorem dump_stack_loop_vm (vm : Vm) (idxs : List Nat) :
    ∀ (names : Option (List Nat)) (queue : List Chunk),
      (dump_stack_loop vm idxs names queue).2 = vm := by
  induction idxs with
  | nil => intro names queue; rfl
  | cons i rest ih =>
    intro names queue
    simp only [dump_stack_loop]
    cases vm.get_stack i <;> simp only [] <;> exact ih _ _

theorem dump_stack_loop_spec (vm : Vm) (idxs : List Nat) :
    ∀ (names : Option (List Nat)) (queue : List Chunk) (extra : List Chunk),
      queue = idxs.filterMap (scan_chunk vm) ++ extra →
      (dump_stack_loop vm idxs names queue).1 = dump_stack_spec_loop vm idxs names := by
  induction idxs with
  | nil => intro names queue extra h; rfl
  | cons i rest ih =>
    intro names queue extra h
    cases hr : vm.get_stack i with
    | callFrame hdl =>
      have hq : queue
          = (vm.get_callframe hdl).chunk :: (rest.filterMap (scan_chunk vm) ++ extra) := by
        rw [h]
        simp [List.filterMap_cons, scan_chunk, hr]
      simp only [dump_stack_loop, dump_stack_spec_loop, hr, hq]
      rw [ih _ _ extra rfl]
    | byte b =>
      have hq : queue = rest.filterMap (scan_chunk vm) ++ extra := by
        rw [h]; simp [List.filterMap_cons, scan_chunk, hr]
      simp only [dump_stack_loop, dump_stack_spec_loop, hr]
      rw [ih _ _ extra hq]
    | int n =>
      have hq : queue = rest.filterMap (scan_chunk vm) ++ extra := by
        rw [h]; simp [List.filterMap_cons, scan_chunk, hr]
      simp only [dump_stack_loop, dump_stack_spec_loop, hr]
      rw [ih _ _ extra hq]
    | value hdl =>
      have hq : queue = rest.filterMap (scan_chunk vm) ++ extra := by
        rw [h]; simp [List.filterMap_cons, scan_chunk, hr]
      simp only [dump_stack_loop, dump_stack_spec_loop, hr]
      rw [ih _ _ extra hq]
    | lambda c2 =>
      have hq : queue = rest.filterMap (scan_chunk vm) ++ extra := by
        rw [h]; simp [List.filterMap_cons, scan_chunk, hr]
      simp only [dump_stack_loop, dump_stack_spec_loop, hr]
      rw [ih _ _ extra hq]
    | closure c2 =>
      have hq : queue = rest.filterMap (scan_chunk vm) ++ extra := by
        rw [h]; simp [List.filterMap_cons, scan_chunk, hr]
      simp only [dump_stack_loop, dump_stack_spec_loop, hr]
      rw [ih _ _ extra hq]
    | keyword kw =>
      have hq : queue = rest.filterMap (scan_chunk vm) ++ extra := by
        rw [h]; simp [List.filterMap_cons, scan_chunk, hr]
      simp only [dump_stack_loop, dump_stack_spec_loop, hr]
      rw [ih _ _ extra hq]
    | nil =>
      have hq : queue = rest.filterMap (scan_chunk vm) ++ extra := by
        rw [h]; simp [List.filterMap_cons, scan_chunk, hr]
      simp only [dump_stack_loop, dump_stack_spec_loop, hr]
      rw [ih _ _ extra hq]
    | other tag =>
      have hq : queue = rest.filterMap (scan_chunk vm) ++ extra := by
        rw [h]; simp [List.filterMap_cons, scan_chunk, hr]
      simp only [dump_stack_loop, dump_stack_spec_loop, hr]
      rw [ih _ _ extra hq]

theorem scan_chunk_zero_none (vm : Vm)
    (h0 : ∀ hdl, vm.get_stack 0 ≠ Value.callFrame hdl) : scan_chunk vm 0 = none := by
  cases hv : vm.get_stack 0 <;> simp [scan_chunk, hv]
  exact absurd hv (h0 _)

theorem dump_stack_eq_spec (vm : Vm)
    (h0 : ∀ hdl, vm.get_stack 0 ≠ Value.callFrame hdl) :
    (dump_stack vm).1 = dump_stack_spec vm := by
  unfold dump_stack dump_stack_spec
  apply dump_stack_loop_spec vm _ none _
    (match vm.err_frame with
     | some f => [f.chunk]
     | none => [])
  unfold dump_stack_chunks
  congr 1
  rw [List.range_succ_eq_map, List.filterMap_cons, scan_chunk_zero_none vm h0]
  try congr 1
  try simp [Nat.succ_eq_add_one]

theorem dump_stack_spec_loop_get (vm : Vm) (idxs : List Nat) :
    ∀ (names : Option (List Nat)) (k i hdl : Nat), idxs[k]? = some i →
      vm.get_stack i = Value.callFrame hdl →
      (dump_stack_spec_loop vm idxs names)[k]? = some (i, "RESULT", Value.callFrame hdl) := by
  induction idxs with
  | nil => intro names k i hdl h _; simp at h
  | cons a rest ih =>
    intro names k i hdl h hv
    match k with
    | 0 =>
      simp only [List.getElem?_cons_zero, Option.some.injEq] at h
      subst h
      simp only [dump_stack_spec_loop, hv, List.getElem?_cons_zero]
    | k + 1 =>
      simp only [List.getElem?_cons_succ] at h
      cases hva : vm.get_stack a <;>
        (simp only [dump_stack_spec_loop, hva, List.getElem?_cons_succ];
         exact ih _ k i hdl h hv)

theorem sizeOf_constants_lt (c : Chunk) : sizeOf c.constants < sizeOf c := by
  cases c
  simp [Chunk.constants]
  omega

/-- Both disassembly recursions hand back the `Vm` they were given, by strong
induction on the size of the chunk / constant list. -/
theorem disVm_aux : ∀ n : Nat,
    (∀ c : Chunk, sizeOf c ≤ n → ∀ (vm : Vm) (ind : Nat) (res : List String × Vm),
      disassemble_chunk vm c ind = .ok res → res.2 = vm) ∧
    (∀ vs : List Value, sizeOf vs ≤ n → ∀ (vm : Vm) (i ind : Nat) (res : List String × Vm),
      disConstants vm vs i ind = .ok res → res.2 = vm) := by
  intro n
  induction n using Nat.strong_induction_on with
  | _ n IH =>
    constructor
    · intro c hc vm ind res h
      rw [disassemble_chunk.eq_def] at h
      cases hcc : disConstants vm c.constants 0 ind with
      | error er => rw [hcc] at h; exact Except.noConfusion h
      | ok cres =>
        rw [hcc] at h
        simp only [Except.bind] at h
        cases hl : disLoop c ind (c.code.length + 1) ⟨0, c.code⟩ 0 false with
        | error er => rw [hl] at h; exact Except.noConfusion h
        | ok ls =>
          rw [hl] at h
          simp only [Except.bind] at h
          injection h with h
          rw [← h]
          have hlt : sizeOf c.constants < n := by
            have := sizeOf_constants_lt c
            omega
          exact (IH (sizeOf c.constants) hlt).2 c.constants (Nat.le_refl _) vm 0 ind cres hcc
    · intro vs hvs vm i ind res h
      cases vs with
      | nil =>
        rw [disConstants.eq_def] at h
        injection h with h
        rw [← h]
      | cons v rest =>
        rw [disConstants.eq_def] at h
        cases v with
        | lambda c2 =>
          change Except.bind (disassemble_chunk vm c2 (ind + 1)) _ = .ok res at h
          cases hsub : disassemble_chunk vm c2 (ind + 1) with
          | error er => rw [hsub] at h; exact Except.noConfusion h
          | ok sub =>
            rw [hsub] at h
            simp only [Except.bind] at h
            cases hrest : disConstants sub.2 rest (i + 1) ind with
            | error er => rw [hrest] at h; exact Except.noConfusion h
            | ok restL =>
              rw [hrest] at h
              simp only [Except.bind] at h
              injection h with h
              rw [← h]
              have hc2 : sizeOf c2 < n := by
                have hsz : sizeOf c2 < sizeOf (Value.lambda c2 :: rest) := by
                  simp <;> omega
                omega
              have hrn : sizeOf rest < n := by
                have hsz : sizeOf rest < sizeOf (Value.lambda c2 :: rest) := by
                  simp <;> omega
                omega
              have h1 : sub.2 = vm :=
                (IH (sizeOf c2) hc2).1 c2 (Nat.le_refl _) vm (ind + 1) sub hsub
              have h2 : restL.2 = sub.2 :=
                (IH (sizeOf rest) hrn).2 rest (Nat.le_refl _) sub.2 (i + 1) ind restL hrest
              simp only [h2, h1]
        | closure c2 =>
          change Except.bind (disassemble_chunk vm c2 (ind + 1)) _ = .ok res at h
          cases hsub : disassemble_chunk vm c2 (ind + 1) with
          | error er => rw [hsub] at h; exact Except.noConfusion h
          | ok sub =>
            rw [hsub] at h
            simp only [Except.bind] at h
            cases hrest : disConstants sub.2 rest (i + 1) ind with
            | error er => rw [hrest] at h; exact Except.noConfusion h
            | ok restL =>
              rw [hrest] at h
              simp only [Except.bind] at h
              injection h with h
              rw [← h]
              have hc2 : sizeOf c2 < n := by
                have hsz : sizeOf c2 < sizeOf (Value.closure c2 :: rest) := by
                  simp <;> omega
                omega
              have hrn : sizeOf rest < n := by
                have hsz : sizeOf rest < sizeOf (Value.closure c2 :: rest) := by
                  simp <;> omega
                omega
              have h1 : sub.2 = vm :=
                (IH (sizeOf c2) hc2).1 c2 (Nat.le_refl _) vm (ind + 1) sub hsub
              have h2 : restL.2 = sub.2 :=
                (IH (sizeOf rest) hrn).2 rest (Nat.le_refl _) sub.2 (i + 1) ind restL hrest
              simp only [h2, h1]
        | byte b =>
          change Except.bind (Except.ok (([] : List String), vm)) _ = .ok res at h
          simp only [Except.bind] at h
          cases hrest : disConstants vm rest (i + 1) ind with
          | error er => rw [hrest] at h; exact Except.noConfusion h
          | ok restL =>
            rw [hrest] at h
            simp only [Except.bind] at h
            injection h with h
            rw [← h]
            have hrn : sizeOf rest < n := by
              have hsz : sizeOf rest < sizeOf (Value.byte b :: rest) := by
                simp <;> omega
              omega
            exact (IH (sizeOf rest) hrn).2 rest (Nat.le_refl _) vm (i + 1) ind restL hrest
        | int iv =>
          change Except.bind (Except.ok (([] : List String), vm)) _ = .ok res at h
          simp only [Except.bind] at h
          cases hrest : disConstants vm rest (i + 1) ind with
          | error er => rw [hrest] at h; exact Except.noConfusion h
          | ok restL =>
            rw [hrest] at h
            simp only [Except.bind] at h
            injection h with h
            rw [← h]
            have hrn : sizeOf rest < n := by
              have hsz : sizeOf rest < sizeOf (Value.int iv :: rest) := by
                simp <;> omega
              omega
            exact (IH (sizeOf rest) hrn).2 rest (Nat.le_refl _) vm (i + 1) ind restL hrest
        | value hdl =>
          change Except.bind (Except.ok (([] : List String), vm)) _ = .ok res at h
          simp only [Except.bind] at h
          cases hrest : disConstants vm rest (i + 1) ind with
          | error er => rw [hrest] at h; exact Except.noConfusion h
          | ok restL =>
            rw [hrest] at h
            simp only [Except.bind] at h
            injection h with h
            rw [← h]
            have hrn : sizeOf rest < n := by
              have hsz : sizeOf rest < sizeOf (Value.value hdl :: rest) := by
                simp <;> omega
              omega
            exact (IH (sizeOf rest) hrn).2 rest (Nat.le_refl _) vm (i + 1) ind restL hrest
        | callFrame hdl =>
          change Except.bind (Except.ok (([] : List String), vm)) _ = .ok res at h
          simp only [Except.bind] at h
          cases hrest : disConstants vm rest (i + 1) ind with
          | error er => rw [hrest] at h; exact Except.noConfusion h
          | ok restL =>
            rw [hrest] at h
            simp only [Except.bind] at h
            injection h with h
            rw [← h]
            have hrn : sizeOf rest < n := by
              have hsz : sizeOf rest < sizeOf (Value.callFrame hdl :: rest) := by
                simp <;> omega
              omega
            exact (IH (sizeOf rest) hrn).2 rest (Nat.le_refl _) vm (i + 1) ind restL hrest
        | keyword kw =>
          change Except.bind (Except.ok (([] : List String), vm)) _ = .ok res at h
          simp only [Except.bind] at h
          cases hrest : disConstants vm rest (i + 1) ind with
          | error er => rw [hrest] at h; exact Except.noConfusion h
          | ok restL =>
            rw [hrest] at h
            simp only [Except.bind] at h
            injection h with h
            rw [← h]
            have hrn : sizeOf rest < n := by
              have hsz : sizeOf rest < sizeOf (Value.keyword kw :: rest) := by
                simp <;> omega
              omega
            exact (IH (sizeOf rest) hrn).2 rest (Nat.le_refl _) vm (i + 1) ind restL hrest
        | nil =>
          change Except.bind (Except.ok (([] : List String), vm)) _ = .ok res at h
          simp only [Except.bind] at h
          cases hrest : disConstants vm rest (i + 1) ind with
          | error er => rw [hrest] at h; exact Except.noConfusion h
          | ok restL =>
            rw [hrest] at h
            simp only [Except.bind] at h
            injection h with h
            rw [← h]
            have hrn : sizeOf rest < n := by
              have hsz : sizeOf rest < sizeOf (Value.nil :: rest) := by
                simp <;> omega
              omega
            exact (IH (sizeOf rest) hrn).2 rest (Nat.le_refl _) vm (i + 1) ind restL hrest
        | other tag =>
          change Except.bind (Except.ok (([] : List String), vm)) _ = .ok res at h
          simp only [Except.bind] at h
          cases hrest : disConstants vm rest (i + 1) ind with
          | error er => rw [hrest] at h; exact Except.noConfusion h
          | ok restL =>
            rw [hrest] at h
            simp only [Except.bind] at h
            injection h with h
            rw [← h]
            have hrn : sizeOf rest < n := by
              have hsz : sizeOf rest < sizeOf (Value.other tag :: rest) := by
                simp <;> omega
              omega
            exact (IH (sizeOf rest) hrn).2 rest (Nat.le_refl _) vm (i + 1) ind restL hrest

theorem disassemble_chunk_vm (vm : Vm) (c : Chunk) (ind : Nat)
    (res : List String × Vm) (h : disassemble_chunk vm c ind = .ok res) :
    res.2 = vm :=
  (disVm_aux (sizeOf c)).1 c (Nat.le_refl _) vm ind res h


theorem disConstants_nil (vm : Vm) (i ind : Nat) :
    disConstants vm [] i ind = .ok ([], vm) := by
  rw [disConstants.eq_def]

theorem dump_regs_loop_length (vm : Vm) (regs : List Value) :
    ∀ (i : Nat) (names : Option (List Nat)),
      (dump_regs_loop vm regs i names).1.length = regs.length := by
  induction regs with
  | nil => intro i names; rfl
  | cons r rest ih =>
    intro i names
    simp only [dump_regs_loop, List.length_cons]
    rw [ih]

theorem get_registers_getElem (vm : Vm) (start n k : Nat) (hk : k < n)
    (hlen : start + n ≤ vm.stack.length) :
    (vm.get_registers start (start + n))[k]? = some (vm.get_stack (start + k)) := by
  unfold Vm.get_registers Vm.get_stack
  rw [show start + n - start = n from by omega]
  rw [List.getElem?_take, if_pos hk, List.getElem?_drop]
  have hsk : start + k < vm.stack.length := by omega
  rw [List.getElem?_eq_getElem hsk]
  rw [List.getD_eq_getElem _ _ hsk]

theorem dump_regs_entry (vm : Vm) (regs : List Value) (names : Option (List Nat)) :
    ∀ k, k < regs.length →
      (dump_regs_loop vm regs 0 names).1[k]?
        = some (k,
            (if k = 0 then "params/result" else regLabel vm names (k - 1)),
            regs.getD k Value.nil) := by
  intro k hk
  cases regs with
  | nil => simp at hk
  | cons r rest =>
    cases k with
    | zero => simp [dump_regs_loop]
    | succ k2 =>
      have hk2 : k2 < rest.length := by simpa using hk
      change ((0, "params/result", r) :: (dump_regs_loop vm rest (0 + 1) names).1)[k2 + 1]?
        = _
      rw [List.getElem?_cons_succ]
      rw [dump_regs_loop_get_pos vm rest (0 + 1) names k2 (by omega) hk2]
      simp only [Option.some.injEq, Prod.mk.injEq, List.getD_cons_succ]
      refine ⟨by omega, ?_, trivial⟩
      simp

/-! ### The claims -/

/-- Claim C1: the `WIDE` opcode is a one-shot prefix.  Its arm alone returns a
true wide flag (consuming no operand bytes); every other opcode's successful
decode hands a false (narrow) flag to the next instruction, whatever the
incoming flag was; and the concrete stream `WIDE; MOV 1,2 (wide); MOV 3,4`
disassembles the first `MOV` with two-byte operands and the second with
one-byte operands. -/
theorem c1_wide_one_shot :
    (∀ (code : ByteIter) (wide : Bool),
      disassemble_instruction code WIDE wide
        = .ok ("WIDE(" ++ hexFmt 2 WIDE ++ ")\n", true, code)) ∧
    (∀ (op : Nat) (code : ByteIter) (wide : Bool) (r : String × Bool × ByteIter),
      op ≠ WIDE → disassemble_instruction code op wide = .ok r → r.2.1 = false) ∧
    disLoop chunk0 0 10 ⟨0, [WIDE, MOV, 0, 1, 0, 2, MOV, 3, 4]⟩ 0 false
      = .ok ["0x00000000      | WIDE(0x04)\n",
             "0x00000001      | MOV(0x05)    \tR(0x0001)\tR(0x0002)\n",
             "0x00000006      | MOV(0x05)    \tR(0x03)\tR(0x04)\n"] := by
  refine ⟨dis_wide_eq, ?_, rfl⟩
  intro op code wide r hne h
  exact dis_flag_false op code wide hne r h

theorem c1_wide_one_shot_witness :
    (("MOV(0x05)    \tR(0x01)\tR(0x02)\n", false, ByteIter.mk 2 []) :
        String × Bool × ByteIter).2.1 = false :=
  c1_wide_one_shot.2.1 MOV (ByteIter.mk 0 [1, 2]) false
    ("MOV(0x05)    \tR(0x01)\tR(0x02)\n", false, ByteIter.mk 2 [])
    (by decide) rfl

/-- Claim C2: a register or constant operand decodes from exactly one byte in
a non-wide context, yielding that byte, and from exactly two bytes in a wide
context, yielding the same value widened (zero high byte); the encoded
`MOV R(10) <- R(15)` disassembles with mnemonic `MOV` and operands `R(0x0a)`
and `R(0x0f)`. -/
theorem c2_operand_widths :
    (∀ (i0 b : Nat) (r : List Nat),
      decode_u8_enum ⟨i0, b :: r⟩ = .ok (b, ⟨i0 + 1, r⟩)) ∧
    (∀ (i0 b : Nat) (r : List Nat),
      decode_u16_enum ⟨i0, 0 :: b :: r⟩ = .ok (b, ⟨i0 + 2, r⟩)) ∧
    (∀ (register : Bool) (i0 b : Nat) (r : List Nat),
      disassemble_operand ⟨i0, b :: r⟩ register false
        = .ok ((if register then "R(" else "K(") ++ hexFmt 2 b ++ ")", ⟨i0 + 1, r⟩)) ∧
    (∀ (register : Bool) (i0 b1 b2 : Nat) (r : List Nat),
      disassemble_operand ⟨i0, b1 :: b2 :: r⟩ register true
        = .ok ((if register then "R(" else "K(") ++ hexFmt 4 ((b1 <<< 8) ||| b2) ++ ")",
            ⟨i0 + 2, r⟩)) ∧
    disassemble_instruction ⟨1, [10, 15]⟩ MOV false
      = .ok ("MOV(0x05)    \tR(0x0a)\tR(0x0f)\n", false, ⟨3, []⟩) := by
  refine ⟨fun i0 b r => rfl, ?_, ?_, ?_, rfl⟩
  · intro i0 b r
    simp [decode_u16_enum, ByteIter.next, Nat.zero_shiftLeft, Nat.zero_or]
  · intro register i0 b r
    cases register <;> rfl
  · intro register i0 b1 b2 r
    cases register <;> rfl

/-- Claim C3 (encoder side modelled from the spec): a stream truncated
mid-operand makes every operand decoder fail with a `new_chunk` (corrupt-code)
error; an opcode byte outside the recognized set fails the same way; the
corrupt-code class is distinct from the runtime-error class; and decoding a
chunk whose code is a well-formed stream from the encoder never returns an
error. -/
theorem c3_decode_errors :
    (∀ i0 : Nat, decode_u8_enum ⟨i0, []⟩
        = .error (VMError.new_chunk
            "Error decoding a u8 from chunk stream, missing operand.")) ∧
    (∀ (i0 : Nat) (bs : List Nat), bs.length < 2 →
      ∃ m, decode_u16_enum ⟨i0, bs⟩ = .error ⟨ErrClass.chunk, m⟩) ∧
    (∀ (i0 : Nat) (bs : List Nat), bs.length < 4 →
      ∃ m, decode_u32_enum ⟨i0, bs⟩ = .error ⟨ErrClass.chunk, m⟩) ∧
    (∀ (op : Nat) (code : ByteIter) (wide : Bool), op ∉ opcodeList →
      ∃ m, disassemble_instruction code op wide = .error ⟨ErrClass.chunk, m⟩) ∧
    ErrClass.chunk ≠ ErrClass.runtime ∧
    (∀ (vm : Vm) (l : List (Bool × Instr)) (fn : String) (ir er : Nat)
        (dbg cap : Option (List Nat)) (lm : List (Nat × Nat)),
      ∃ out,
        disassemble_chunk vm (Chunk.mk fn (encode_stream l) [] ir er dbg cap lm) 0
          = .ok ((indentStr 0 ++ "CONSTANTS:\n") :: "\n" ::
              ((match cap with
                | some caps => [indentStr 0 ++ "Captures: " ++ toString caps ++ "\n"]
                | none => []) ++ out), vm)) := by
  refine ⟨fun i0 => rfl, ?_, ?_, dis_unknown_opcode, by decide, disassemble_chunk_encode⟩
  · intro i0 bs h
    match bs, h with
    | [], _ => exact ⟨_, rfl⟩
    | [b], _ => exact ⟨_, rfl⟩
  · intro i0 bs h
    match bs, h with
    | [], _ => exact ⟨_, rfl⟩
    | [b], _ => exact ⟨_, rfl⟩
    | [b1, b2], _ => exact ⟨_, rfl⟩
    | [b1, b2, b3], _ => exact ⟨_, rfl⟩

theorem c3_decode_errors_witness :
    (∃ m, decode_u16_enum ⟨0, [5]⟩ = .error ⟨ErrClass.chunk, m⟩) ∧
    (∃ m, disassemble_instruction ⟨0, []⟩ 200 false = .error ⟨ErrClass.chunk, m⟩) ∧
    (∃ out,
      disassemble_chunk vmW
          (Chunk.mk "w" (encode_stream [(false, Instr.ret)]) [] 0 0 none none []) 0
        = .ok ((indentStr 0 ++ "CONSTANTS:\n") :: "\n" :: out, vmW)) :=
  ⟨c3_decode_errors.2.1 0 [5] (by decide),
   c3_decode_errors.2.2.2.1 200 ⟨0, []⟩ false (by decide),
   c3_decode_errors.2.2.2.2.2 vmW [(false, Instr.ret)] "w" 0 0 none none []⟩

/-- Claim C4, counterexample: the claim says the `G[...]` operand of `REF` is
decoded with the big-immediate width (2 bytes in a non-wide context).  In the
code the `REF` arm decodes it with `disassemble_operand` (1 byte narrow):
decoding `REF` from the three bytes `[5, 7, 9]` consumes only two of them
(dest register and global), leaving `[9]`, where the claim requires all three
to be consumed. -/
theorem c4_global_counterexample :
    disassemble_instruction ⟨0, [5, 7, 9]⟩ REF false
      = .ok ("REF(0x08)    \tR(0x05)\tG[R(0x07)]\n", false, ⟨2, [9]⟩) ∧
    ByteIter.mk 2 [9] ≠ ByteIter.mk 3 ([] : List Nat) := by
  exact ⟨rfl, by decide⟩

/-- Claim C4, amended: only `REFI`, `CALLG` and `TCALLG` decode their global
operand with the big-immediate width (2 bytes narrow, 4 wide); `REF`, `DEF`
and `DEFV` decode their `G[...]` operand with the register width (1 byte
narrow, 2 wide).  Byte counts per instruction (the other operand widths are
fixed by C2): REF/DEF/DEFV narrow 1+1, wide 2+2; REFI narrow 1+2, wide 2+4;
CALLG narrow 2+1+1, wide 4+2+2; TCALLG narrow 2+1, wide 4+2. -/
theorem c4_amended_global_widths :
    (∀ (i0 a b : Nat) (r : List Nat), ∃ s,
      disassemble_instruction ⟨i0, a :: b :: r⟩ REF false = .ok (s, false, ⟨i0 + 2, r⟩)) ∧
    (∀ (i0 a1 a2 b1 b2 : Nat) (r : List Nat), ∃ s,
      disassemble_instruction ⟨i0, a1 :: a2 :: b1 :: b2 :: r⟩ REF true
        = .ok (s, false, ⟨i0 + 4, r⟩)) ∧
    (∀ (i0 a b : Nat) (r : List Nat), ∃ s,
      disassemble_instruction ⟨i0, a :: b :: r⟩ DEF false = .ok (s, false, ⟨i0 + 2, r⟩)) ∧
    (∀ (i0 a1 a2 b1 b2 : Nat) (r : List Nat), ∃ s,
      disassemble_instruction ⟨i0, a1 :: a2 :: b1 :: b2 :: r⟩ DEF true
        = .ok (s, false, ⟨i0 + 4, r⟩)) ∧
    (∀ (i0 a b : Nat) (r : List Nat), ∃ s,
      disassemble_instruction ⟨i0, a :: b :: r⟩ DEFV false = .ok (s, false, ⟨i0 + 2, r⟩)) ∧
    (∀ (i0 a1 a2 b1 b2 : Nat) (r : List Nat), ∃ s,
      disassemble_instruction ⟨i0, a1 :: a2 :: b1 :: b2 :: r⟩ DEFV true
        = .ok (s, false, ⟨i0 + 4, r⟩)) ∧
    (∀ (i0 a g1 g2 : Nat) (r : List Nat), ∃ s,
      disassemble_instruction ⟨i0, a :: g1 :: g2 :: r⟩ REFI false
        = .ok (s, false, ⟨i0 + 3, r⟩)) ∧
    (∀ (i0 a1 a2 g1 g2 g3 g4 : Nat) (r : List Nat), ∃ s,
      disassemble_instruction ⟨i0, a1 :: a2 :: g1 :: g2 :: g3 :: g4 :: r⟩ REFI true
        = .ok (s, false, ⟨i0 + 6, r⟩)) ∧
    (∀ (i0 g1 g2 m d : Nat) (r : List Nat), ∃ s,
      disassemble_instruction ⟨i0, g1 :: g2 :: m :: d :: r⟩ CALLG false
        = .ok (s, false, ⟨i0 + 4, r⟩)) ∧
    (∀ (i0 g1 g2 g3 g4 m1 m2 d1 d2 : Nat) (r : List Nat), ∃ s,
      disassemble_instruction ⟨i0, g1 :: g2 :: g3 :: g4 :: m1 :: m2 :: d1 :: d2 :: r⟩
          CALLG true = .ok (s, false, ⟨i0 + 8, r⟩)) ∧
    (∀ (i0 g1 g2 m : Nat) (r : List Nat), ∃ s,
      disassemble_instruction ⟨i0, g1 :: g2 :: m :: r⟩ TCALLG false
        = .ok (s, false, ⟨i0 + 3, r⟩)) ∧
    (∀ (i0 g1 g2 g3 g4 m1 m2 : Nat) (r : List Nat), ∃ s,
      disassemble_instruction ⟨i0, g1 :: g2 :: g3 :: g4 :: m1 :: m2 :: r⟩ TCALLG true
        = .ok (s, false, ⟨i0 + 6, r⟩)) := by
  exact ⟨fun i0 a b r => ⟨_, rfl⟩, fun i0 a1 a2 b1 b2 r => ⟨_, rfl⟩,
    fun i0 a b r => ⟨_, rfl⟩, fun i0 a1 a2 b1 b2 r => ⟨_, rfl⟩,
    fun i0 a b r => ⟨_, rfl⟩, fun i0 a1 a2 b1 b2 r => ⟨_, rfl⟩,
    fun i0 a g1 g2 r => ⟨_, rfl⟩, fun i0 a1 a2 g1 g2 g3 g4 r => ⟨_, rfl⟩,
    fun i0 g1 g2 m d r => ⟨_, rfl⟩, fun i0 g1 g2 g3 g4 m1 m2 d1 d2 r => ⟨_, rfl⟩,
    fun i0 g1 g2 m r => ⟨_, rfl⟩, fun i0 g1 g2 g3 g4 m1 m2 r => ⟨_, rfl⟩⟩

/-- Claim C5: `dump_regs` dumps exactly `input_regs + extra_regs + 1` slots
starting at the frame's stack base; entry 0 is labeled `params/result`, the
entry for register `k ≥ 1` carries the `(k-1)`-th declared name while names
remain and `[SCRATCH]` afterwards, and each entry shows the value at stack
slot `stack_top + k`. -/
theorem c5_register_window_dump (vm : Vm) (frame : CallFrame)
    (hlen : frame.stack_top + frame.chunk.input_regs + frame.chunk.extra_regs + 1
      ≤ vm.stack.length) :
    ((dump_regs vm frame).1).length
        = frame.chunk.input_regs + frame.chunk.extra_regs + 1 ∧
    ∀ k, k < frame.chunk.input_regs + frame.chunk.extra_regs + 1 →
      ((dump_regs vm frame).1)[k]?
        = some (k,
            (if k = 0 then "params/result"
             else regLabel vm frame.chunk.dbg_args (k - 1)),
            vm.get_stack (frame.stack_top + k)) := by
  have hn : frame.stack_top + (frame.chunk.input_regs + frame.chunk.extra_regs + 1)
      ≤ vm.stack.length := by omega
  have e0 : (dump_regs vm frame).1
      = (dump_regs_loop vm
          (vm.get_registers frame.stack_top
            (frame.stack_top + (frame.chunk.input_regs + frame.chunk.extra_regs + 1)))
          0 frame.chunk.dbg_args).1 := by
    unfold dump_regs
    rw [show frame.stack_top + frame.chunk.input_regs + frame.chunk.extra_regs + 1
      = frame.stack_top + (frame.chunk.input_regs + frame.chunk.extra_regs + 1)
      from by omega]
  have hreglen : (vm.get_registers frame.stack_top
      (frame.stack_top + (frame.chunk.input_regs + frame.chunk.extra_regs + 1))).length
      = frame.chunk.input_regs + frame.chunk.extra_regs + 1 := by
    unfold Vm.get_registers
    rw [List.length_take, List.length_drop]
    omega
  constructor
  · rw [e0, dump_regs_loop_length, hreglen]
  · intro k hk
    rw [e0, dump_regs_entry vm _ frame.chunk.dbg_args k (by rw [hreglen]; exact hk)]
    have hval := get_registers_getElem vm frame.stack_top
      (frame.chunk.input_regs + frame.chunk.extra_regs + 1) k hk hn
    have : (vm.get_registers frame.stack_top
        (frame.stack_top + (frame.chunk.input_regs + frame.chunk.extra_regs + 1))).getD
          k Value.nil = vm.get_stack (frame.stack_top + k) := by
      simp [List.getD, hval]
    rw [this]

theorem c5_register_window_dump_witness :
    ((dump_regs vmW frameA).1).length
      = frameA.chunk.input_regs + frameA.chunk.extra_regs + 1 :=
  (c5_register_window_dump vmW frameA (by decide)).1

/-- Claim C6: provided the bottom stack slot is not itself a frame marker (it
is a frame's params/result slot), the two-pass raw stack dump coincides with
the single-pass walk the claim describes — scanning every slot from the
bottom, annotating each `CallFrame` slot as a boundary and restarting register
naming from that frame's chunk — and every `CallFrame` slot in range is
annotated `RESULT`. -/
theorem c6_stack_scan (vm : Vm)
    (h0 : ∀ hdl, vm.get_stack 0 ≠ Value.callFrame hdl) :
    (dump_stack vm).1 = dump_stack_spec vm ∧
    ∀ i hdl, i < vm.stack_max + 1 → vm.get_stack i = Value.callFrame hdl →
      ((dump_stack vm).1)[i]? = some (i, "RESULT", Value.callFrame hdl) := by
  have heq := dump_stack_eq_spec vm h0
  refine ⟨heq, ?_⟩
  intro i hdl hi hv
  rw [heq]
  unfold dump_stack_spec
  exact dump_stack_spec_loop_get vm (List.range (vm.stack_max + 1)) none i i hdl
    (by simp [List.getElem?_range, hi]) hv

theorem c6_stack_scan_witness : (dump_stack vmW).1 = dump_stack_spec vmW :=
  (c6_stack_scan vmW (by intro hdl hcontra; simp [Vm.get_stack, vmW] at hcontra)).1

/-- Claim C7: the introspection operations are read-only — each returns the
`Vm` state it was given unchanged (the register dump, the raw stack dump, the
global-table dump, and a successful chunk disassembly), and the chunk, being
immutable data, is untouched. -/
theorem c7_read_only :
    (∀ (vm : Vm) (frame : CallFrame), (dump_regs vm frame).2 = vm) ∧
    (∀ vm : Vm, (dump_stack vm).2 = vm) ∧
    (∀ vm : Vm, (dump_globals vm).2 = vm) ∧
    ∀ (vm : Vm) (c : Chunk) (ind : Nat) (res : List String × Vm),
      disassemble_chunk vm c ind = .ok res → res.2 = vm := by
  refine ⟨?_, ?_, fun vm => rfl, disassemble_chunk_vm⟩
  · intro vm frame
    exact dump_regs_loop_vm vm _ 0 _
  · intro vm
    exact dump_stack_loop_vm vm _ none _

theorem c7_read_only_witness :
    (([indentStr 0 ++ "CONSTANTS:\n", "\n"], vmW) : List String × Vm).2 = vmW :=
  c7_read_only.2.2.2 vmW chunk0 0 ([indentStr 0 ++ "CONSTANTS:\n", "\n"], vmW)
    (by rw [disassemble_chunk.eq_def]
        simp only [chunk0, Chunk.constants, Chunk.code, Chunk.captures]
        rw [disConstants_nil]
        rfl)

/-- Claim C8: each disassembly line starts with the instruction's byte offset;
the source line is printed exactly when the line table knows the offset and
the line differs from the previously printed one, with the placeholder column
otherwise (same line, or no mapping); and Lambda/Closure constants are
recursively disassembled at `indent_level + 1`. -/
theorem c8_disassembly_lines :
    (∀ (vm : Vm) (c2 : Chunk) (rest : List Value) (i ind : Nat)
        (subres restres : List String × Vm),
      disassemble_chunk vm c2 (ind + 1) = .ok subres →
      disConstants subres.2 rest (i + 1) ind = .ok restres →
      disConstants vm (Value.lambda c2 :: rest) i ind
        = .ok ((indentStr ind ++ toString i ++ ": "
              ++ (Value.lambda c2).display_value vm ++ "\n")
            :: (subres.1 ++ restres.1), restres.2)) ∧
    (∀ (vm : Vm) (c2 : Chunk) (rest : List Value) (i ind : Nat)
        (subres restres : List String × Vm),
      disassemble_chunk vm c2 (ind + 1) = .ok subres →
      disConstants subres.2 rest (i + 1) ind = .ok restres →
      disConstants vm (Value.closure c2 :: rest) i ind
        = .ok ((indentStr ind ++ toString i ++ ": "
              ++ (Value.closure c2).display_value vm ++ "\n")
            :: (subres.1 ++ restres.1), restres.2)) ∧
    (∀ (ch : Chunk) (ind fuel j ll b : Nat) (tail : List Nat) (w : Bool),
      disLoop ch ind (fuel + 1) ⟨j, b :: tail⟩ ll w
        = Except.bind (disassemble_instruction ⟨j + 1, tail⟩ b w) fun q =>
          Except.bind (disLoop ch ind fuel q.2.2 (nextLastLine ch j ll) q.2.1)
            fun restL =>
          .ok ((linePrefix ch ind j ll ++ q.1) :: restL)) ∧
    (∀ (ch : Chunk) (ind idx ll ln : Nat),
      ch.offset_to_line idx = some ln → ll ≠ ln →
      linePrefix ch ind idx ll
          = indentStr ind ++ hexFmt 8 idx ++ " " ++ (pad6 (toString ln) ++ " ") ∧
      nextLastLine ch idx ll = ln) ∧
    (∀ (ch : Chunk) (ind idx ln : Nat), ch.offset_to_line idx = some ln →
      linePrefix ch ind idx ln = indentStr ind ++ hexFmt 8 idx ++ " " ++ "     | " ∧
      nextLastLine ch idx ln = ln) ∧
    (∀ (ch : Chunk) (ind idx ll : Nat), ch.offset_to_line idx = none →
      linePrefix ch ind idx ll = indentStr ind ++ hexFmt 8 idx ++ " " ++ "     | " ∧
      nextLastLine ch idx ll = ll) := by
  refine ⟨?_, ?_, disLoop_cons, ?_, ?_, ?_⟩
  · intro vm c2 rest i ind subres restres h1 h2
    rw [disConstants.eq_def]
    change Except.bind (disassemble_chunk vm c2 (ind + 1)) _ = _
    rw [h1]
    simp only [Except.bind]
    rw [h2]
  · intro vm c2 rest i ind subres restres h1 h2
    rw [disConstants.eq_def]
    change Except.bind (disassemble_chunk vm c2 (ind + 1)) _ = _
    rw [h1]
    simp only [Except.bind]
    rw [h2]
  · intro ch ind idx ll ln hsome hne
    unfold linePrefix nextLastLine
    rw [hsome]
    constructor
    · change indentStr ind ++ hexFmt 8 idx ++ " " ++
        (if ll ≠ ln then pad6 (toString ln) ++ " " else "     | ") = _
      rw [if_pos hne]
    · change (if ll ≠ ln then ln else ll) = ln
      rw [if_pos hne]
  · intro ch ind idx ln hsome
    unfold linePrefix nextLastLine
    rw [hsome]
    have hnot : ¬ (ln ≠ ln) := fun hcon => hcon rfl
    constructor
    · change indentStr ind ++ hexFmt 8 idx ++ " " ++
        (if ln ≠ ln then pad6 (toString ln) ++ " " else "     | ") = _
      rw [if_neg hnot]
    · change (if ln ≠ ln then ln else ln) = ln
      rw [if_neg hnot]
  · intro ch ind idx ll hnone
    unfold linePrefix nextLastLine
    rw [hnone]
    exact ⟨rfl, rfl⟩

theorem c8_disassembly_lines_witness :
    (linePrefix chunkLine 0 0 0
        = indentStr 0 ++ hexFmt 8 0 ++ " " ++ (pad6 (toString 7) ++ " ") ∧
      nextLastLine chunkLine 0 0 = 7) ∧
    (linePrefix chunkLine 0 0 7
        = indentStr 0 ++ hexFmt 8 0 ++ " " ++ "     | " ∧
      nextLastLine chunkLine 0 7 = 7) :=
  ⟨c8_disassembly_lines.2.2.2.1 chunkLine 0 0 0 7 (by decide) (by decide),
   c8_disassembly_lines.2.2.2.2.1 chunkLine 0 0 7 (by decide)⟩

/-- Claim C9: multi-byte operands are big-endian — the two-byte decoder yields
`(first << 8) | second` and the four-byte decoder
`(b1 << 24) | (b2 << 16) | (b3 << 8) | b4`, the earlier byte always more
significant. -/
theorem c9_big_endian :
    (∀ (i0 b1 b2 : Nat) (r : List Nat),
      decode_u16_enum ⟨i0, b1 :: b2 :: r⟩ = .ok ((b1 <<< 8) ||| b2, ⟨i0 + 2, r⟩)) ∧
    (∀ (i0 b1 b2 b3 b4 : Nat) (r : List Nat),
      decode_u32_enum ⟨i0, b1 :: b2 :: b3 :: b4 :: r⟩
        = .ok ((b1 <<< 24) ||| (b2 <<< 16) ||| (b3 <<< 8) ||| b4, ⟨i0 + 4, r⟩)) :=
  ⟨fun _ _ _ _ => rfl, fun _ _ _ _ _ _ => rfl⟩

/-- Claim C10: both the `:dasm` and `:regs` debugger commands act on the frame
at 1-based position `|n|` of the innermost-first call-stack enumeration, so a
negative argument selects the same frame as its absolute value; with no
argument both fall back to the retained error frame. -/
theorem c10_debug_frame_selection (vm : Vm) :
    (∀ n : Int, 1 ≤ n.natAbs →
      debug_dasm_frame vm (some (Value.int n)) = vm.get_call_stack[n.natAbs - 1]?) ∧
    (∀ n : Int, debug_dasm_frame vm (some (Value.int (-n)))
        = debug_dasm_frame vm (some (Value.int n))) ∧
    debug_dasm_frame vm none = vm.err_frame ∧
    (∀ n : Int, 1 ≤ n.natAbs →
      debug_regs_frame vm (some (Value.int n)) = vm.get_call_stack[n.natAbs - 1]?) ∧
    (∀ n : Int, debug_regs_frame vm (some (Value.int (-n)))
        = debug_regs_frame vm (some (Value.int n))) ∧
    debug_regs_frame vm none = vm.err_frame := by
  have hsel : ∀ n : Int, 1 ≤ n.natAbs →
      frame_for_idx n.natAbs vm.get_call_stack 0 = vm.get_call_stack[n.natAbs - 1]? := by
    intro n h1
    rw [frame_for_idx_eq, if_neg (by omega), Nat.sub_zero]
  refine ⟨?_, ?_, rfl, ?_, ?_, rfl⟩
  · intro n h1
    simpa [debug_dasm_frame, get_int] using hsel n h1
  · intro n
    simp [debug_dasm_frame, get_int, Int.natAbs_neg]
  · intro n h1
    simpa [debug_regs_frame, get_int] using hsel n h1
  · intro n
    simp [debug_regs_frame, get_int, Int.natAbs_neg]

theorem c10_debug_frame_selection_witness :
    debug_dasm_frame vmW (some (Value.int (-2)))
      = vmW.get_call_stack[(Int.natAbs (-2)) - 1]? :=
  (c10_debug_frame_selection vmW).1 (-2) (by decide)

end Slvm
